import Mathlib

/-!
Verification development for the clawdbot heartbeat scheduling and
delivery-targeting subsystem (src/infra/heartbeat-runner.ts and the
WhatsApp channel plugin outbound target resolution).

The TypeScript code is shallowly embedded as pure Lean functions.
External collaborators (the agent invocation, the outbound dispatcher,
the session store file) are represented by explicit values threaded
through a `RunInput` record, so one run of `runHeartbeatOnce` is a pure
function of its inputs.  Helpers that are imported by the runner but
whose sources were not provided (duration parsing, ack-token stripping,
target normalization, the heartbeat delivery target resolver) are
modelled from the specification; each such definition carries a doc
comment starting with `Modelled from the spec:`.

String operations are implemented over the underlying character lists so
that every definition evaluates by kernel reduction on concrete inputs.
-/

namespace Clawdbot

/-- Trim of a character list: whitespace dropped from both ends. -/
def trimChars (l : List Char) : List Char :=
  ((l.dropWhile Char.isWhitespace).reverse.dropWhile Char.isWhitespace).reverse

/-- Kernel-reducible counterpart of `String.trim`. -/
def strTrim (s : String) : String := String.mk (trimChars s.data)

/-- Kernel-reducible counterpart of `String.startsWith`. -/
def strStartsWith (s pre : String) : Bool := pre.data.isPrefixOf s.data

/-- Kernel-reducible counterpart of `String.endsWith`. -/
def strEndsWith (s suf : String) : Bool := suf.data.isSuffixOf s.data

/-- Kernel-reducible counterpart of `String.drop` (drop from the left). -/
def strDrop (s : String) (n : Nat) : String := String.mk (s.data.drop n)

/-- Drop the last `n` characters. -/
def strDropRight (s : String) (n : Nat) : String :=
  String.mk (s.data.take (s.data.length - n))

/-- Character count of a string. -/
def strLength (s : String) : Nat := s.data.length

/-- Kernel-reducible counterpart of `String.toLower`. -/
def strToLower (s : String) : String := String.mk (s.data.map Char.toLower)

/-- Left-trim: whitespace dropped from the start only. -/
def strTrimLeft (s : String) : String := String.mk (s.data.dropWhile Char.isWhitespace)

/-- Membership of a character in a string. -/
def strContainsChar (s : String) (c : Char) : Bool := s.data.contains c

/-- Reply payload returned by the agent: optional text and media
attachments (mirrors `ReplyPayload` from src/auto-reply/types.ts as used
by the heartbeat runner). -/
structure ReplyPayload where
  text : Option String := none
  mediaUrl : Option String := none
  mediaUrls : Option (List String) := none
deriving Repr, DecidableEq

/-- Session store entry for one session key (the fields of `SessionEntry`
read and written by the heartbeat runner). -/
structure SessionEntry where
  sessionId : Option String := none
  updatedAt : Option Nat := none
  lastChannel : Option String := none
  lastAccountId : Option String := none
  lastTo : Option String := none
  lastHeartbeatText : Option String := none
  lastHeartbeatSentAt : Option Nat := none
deriving Repr, DecidableEq

/-- Heartbeat configuration block (`AgentDefaultsConfig.heartbeat`).
The recipient override field `to` keeps its source name via guillemets
because `to` is a Lean keyword. -/
structure HeartbeatConfig where
  every : Option String := none
  target : Option String := none
  «to» : Option String := none
  prompt : Option String := none
  ackMaxChars : Option Nat := none
  includeReasoning : Option Bool := none
deriving Repr, DecidableEq

/-- One entry of `cfg.agents.list`.  The `isDefault` flag mirrors the
`default: true` marker used in the config. -/
structure AgentEntry where
  id : Option String := none
  heartbeat : Option HeartbeatConfig := none
  isDefault : Bool := false
deriving Repr, DecidableEq

/-- The slice of `ClawdbotConfig` consulted by the heartbeat runner and
by WhatsApp delivery-target resolution. -/
structure ClawdbotConfig where
  agentsList : Option (List AgentEntry) := none
  agentsDefaultsHeartbeat : Option HeartbeatConfig := none
  whatsappAllowFrom : Option (List String) := none
deriving Repr, DecidableEq

/-- Default heartbeat interval string (`DEFAULT_HEARTBEAT_EVERY` from
src/auto-reply/heartbeat.ts; the docs state the default is 30 minutes). -/
def DEFAULT_HEARTBEAT_EVERY : String := "30m"

/-- Default ack-length threshold (`DEFAULT_HEARTBEAT_ACK_MAX_CHARS`). -/
def DEFAULT_HEARTBEAT_ACK_MAX_CHARS : Nat := 300

/-- Default ack token text recognized in heartbeat replies. -/
def HEARTBEAT_ACK_TOKEN : String := "HEARTBEAT_OK"

/-- Decimal value of a digit-character list. -/
def digitsToNat (l : List Char) : Nat :=
  l.foldl (fun acc c => acc * 10 + (c.toNat - 48)) 0

/-- Modelled from the spec: `parseDurationMs` from src/cli/parse-duration.ts
(not provided in src/).  A duration string is a decimal number with an
optional unit suffix; the default unit here is minutes (the runner calls
it with `defaultUnit: "m"`).  Unparsable strings throw, which is modelled
as `none`. -/
def parseDurationMs (s : String) : Option Nat :=
  let digits := s.data.takeWhile Char.isDigit
  let rest := String.mk (s.data.drop digits.length)
  if digits.isEmpty then none
  else
    let n := digitsToNat digits
    if rest = "" then some (n * 60000)
    else if rest = "s" then some (n * 1000)
    else if rest = "m" then some (n * 60000)
    else if rest = "h" then some (n * 3600000)
    else if rest = "d" then some (n * 86400000)
    else none

/-- Merge of a defaults heartbeat block with a per-agent override
(field-by-field, override wins per field), as the object spread of
defaults then overrides does in the source. -/
def mergeHeartbeatConfig (d o : HeartbeatConfig) : HeartbeatConfig where
  every := o.every.orElse fun _ => d.every
  target := o.target.orElse fun _ => d.target
  «to» := o.«to».orElse fun _ => d.«to»
  prompt := o.prompt.orElse fun _ => d.prompt
  ackMaxChars := o.ackMaxChars.orElse fun _ => d.ackMaxChars
  includeReasoning := o.includeReasoning.orElse fun _ => d.includeReasoning

/-- The default agent id (`DEFAULT_AGENT_ID` from
src/routing/session-key.ts). -/
def DEFAULT_AGENT_ID : String := "main"

/-- Whether a character may appear after the head of a well-formed agent
id (the bracket class of the id pattern, case-insensitive). -/
def isAgentIdTailChar (c : Char) : Bool :=
  c.isAlphanum || c == '_' || c == '-'

/-- Whether a trimmed id matches the path-safe pattern of
`normalizeAgentId`: an alphanumeric head followed by up to 63 characters
from the id class, letters of either case. -/
def agentIdWellFormed (t : String) : Bool :=
  match t.data with
  | [] => false
  | c :: rest => c.isAlphanum && rest.all isAgentIdTailChar && rest.length ≤ 63

/-- The fallback sanitization pass of `normalizeAgentId`: each maximal
run of characters outside the lowercase id class collapses to a single
dash (the global replace of invalid runs). -/
def collapseInvalidChars (prevInvalid : Bool) : List Char → List Char
  | [] => []
  | c :: rest =>
    if c.isLower || c.isDigit || c == '_' || c == '-' then
      c :: collapseInvalidChars false rest
    else if prevInvalid then collapseInvalidChars true rest
    else '-' :: collapseInvalidChars true rest

/-- Embeds `normalizeAgentId` (src/routing/session-key.ts, provided in
src/unnamed/part_003): trim; an empty id falls back to the default agent
id; an id matching the path-safe pattern is kept as written, case
included; anything else is lowercased, invalid runs collapse to dashes,
dashes are stripped from both ends, the result is cut to 64 characters,
and an empty result falls back to the default agent id. -/
def normalizeAgentId (s : String) : String :=
  let trimmed := strTrim s
  if trimmed = "" then DEFAULT_AGENT_ID
  else if agentIdWellFormed trimmed then trimmed
  else
    let collapsed := collapseInvalidChars false (strToLower trimmed).data
    let stripped :=
      ((collapsed.dropWhile (· == '-')).reverse.dropWhile (· == '-')).reverse
    let sliced := stripped.take 64
    if sliced.isEmpty then DEFAULT_AGENT_ID else String.mk sliced

/-- Modelled from the spec: `resolveDefaultAgentId` from
src/agents/agent-scope.ts (not provided in src/): the agent flagged
`default: true` in the list, else the first list entry, else the
built-in main agent id. -/
def resolveDefaultAgentId (cfg : ClawdbotConfig) : String :=
  let list := cfg.agentsList.getD []
  match list.find? (·.isDefault) with
  | some e => normalizeAgentId (e.id.getD "main")
  | none =>
    match list.head? with
    | some e => normalizeAgentId (e.id.getD "main")
    | none => "main"

/-- Embeds `hasExplicitHeartbeatAgents` (heartbeat-runner.ts line 89). -/
def hasExplicitHeartbeatAgents (cfg : ClawdbotConfig) : Bool :=
  (cfg.agentsList.getD []).any fun e => e.heartbeat.isSome

/-- Embeds `isHeartbeatEnabledForAgent` (heartbeat-runner.ts lines 94-104). -/
def isHeartbeatEnabledForAgent (cfg : ClawdbotConfig) (agentId : Option String) : Bool :=
  let resolved := normalizeAgentId (agentId.getD (resolveDefaultAgentId cfg))
  let list := cfg.agentsList.getD []
  if hasExplicitHeartbeatAgents cfg then
    list.any fun e => e.heartbeat.isSome && (normalizeAgentId (e.id.getD "") == resolved)
  else
    resolved == resolveDefaultAgentId cfg

/-- Modelled from the spec: `resolveAgentConfig` from
src/agents/agent-scope.ts (not provided in src/): look up the list entry
whose normalized id matches. -/
def resolveAgentConfig (cfg : ClawdbotConfig) (agentId : String) : Option AgentEntry :=
  (cfg.agentsList.getD []).find? fun e =>
    normalizeAgentId (e.id.getD "") == normalizeAgentId agentId

/-- Embeds `resolveHeartbeatConfig` (heartbeat-runner.ts lines 106-115). -/
def resolveHeartbeatConfig (cfg : ClawdbotConfig) (agentId : Option String) :
    Option HeartbeatConfig :=
  let defaults := cfg.agentsDefaultsHeartbeat
  match agentId with
  | none => defaults
  | some aid =>
    let overrides := (resolveAgentConfig cfg aid).bind (·.heartbeat)
    if defaults.isNone && overrides.isNone then overrides
    else some (mergeHeartbeatConfig (defaults.getD {}) (overrides.getD {}))

/-- Embeds `resolveHeartbeatIntervalMs` (heartbeat-runner.ts lines
180-201): pick the first configured `every` (override, per-run heartbeat
block, config defaults, then the built-in default), parse it with minute
default unit, and return `none` for empty, unparsable, or non-positive
durations. -/
def resolveHeartbeatIntervalMs (cfg : ClawdbotConfig) (overrideEvery : Option String)
    (heartbeat : Option HeartbeatConfig) : Option Nat :=
  let raw :=
    match overrideEvery with
    | some v => v
    | none =>
      match heartbeat.bind (·.every) with
      | some v => v
      | none =>
        match cfg.agentsDefaultsHeartbeat.bind (·.every) with
        | some v => v
        | none => DEFAULT_HEARTBEAT_EVERY
  if raw = "" then none
  else
    let trimmed := strTrim raw
    if trimmed = "" then none
    else
      match parseDurationMs trimmed with
      | none => none
      | some ms => if ms = 0 then none else some ms

/-- Embeds `resolveHeartbeatAckMaxChars` (heartbeat-runner.ts lines
207-214); the value is a natural number so the `Math.max(0, _)` clamp is
implicit. -/
def resolveHeartbeatAckMaxChars (cfg : ClawdbotConfig) (heartbeat : Option HeartbeatConfig) :
    Nat :=
  ((heartbeat.bind (·.ackMaxChars)).orElse fun _ =>
    cfg.agentsDefaultsHeartbeat.bind (·.ackMaxChars)).getD DEFAULT_HEARTBEAT_ACK_MAX_CHARS

/-- Result of ack-token stripping. -/
structure StripResult where
  text : String
  shouldSkip : Bool
deriving Repr, DecidableEq

/-- Modelled from the spec: `stripHeartbeatToken` from
src/auto-reply/heartbeat.ts (not provided in src/).  In heartbeat mode
the ack token is recognized only when the trimmed reply starts or ends
with it (a mid-string occurrence is not treated specially); the token is
stripped, the remainder is trimmed, and the reply should be skipped when
the remainder is at most `maxAckChars` characters long. -/
def stripHeartbeatToken (text : Option String) (token : String) (maxAckChars : Nat) :
    StripResult :=
  let raw := text.getD ""
  let t := strTrim raw
  if token != "" && strStartsWith t token then
    let rest := strTrim (strDrop t (strLength token))
    { text := rest, shouldSkip := strLength rest ≤ maxAckChars }
  else if token != "" && strEndsWith t token then
    let rest := strTrim (strDropRight t (strLength token))
    { text := rest, shouldSkip := strLength rest ≤ maxAckChars }
  else
    { text := raw, shouldSkip := false }

/-- Normalized main heartbeat reply. -/
structure NormalizedReply where
  shouldSkip : Bool
  text : String
  hasMedia : Bool
deriving Repr, DecidableEq

/-- Whether a payload carries media (`Boolean(payload.mediaUrl ||
(payload.mediaUrls?.length ?? 0) > 0)`); an empty-string `mediaUrl` is
falsy in the source. -/
def payloadHasMedia (p : ReplyPayload) : Bool :=
  (p.mediaUrl.getD "") != "" || (p.mediaUrls.getD []).length > 0

/-- Embeds `normalizeHeartbeatReply` (heartbeat-runner.ts lines 510-532).
The ack token is threaded explicitly; the source obtains it inside
`stripHeartbeatToken`. -/
def normalizeHeartbeatReply (payload : ReplyPayload) (token : String)
    (prefixText : Option String) (ackMaxChars : Nat) : NormalizedReply :=
  let stripped := stripHeartbeatToken payload.text token ackMaxChars
  let hasMedia := payloadHasMedia payload
  if stripped.shouldSkip && !hasMedia then
    { shouldSkip := true, text := "", hasMedia }
  else
    let ft := stripped.text
    let ft :=
      match prefixText with
      | some p => if p != "" && ft != "" && !strStartsWith ft p then p ++ " " ++ ft else ft
      | none => ft
    { shouldSkip := false, text := ft, hasMedia }

/-- Agent invocation result: `ReplyPayload | ReplyPayload[] | undefined`. -/
inductive ReplyResult where
  | undef
  | single (payload : ReplyPayload)
  | many (payloads : List ReplyPayload)
deriving Repr, DecidableEq

/-- Truthiness test used by the selection loop in
`resolveHeartbeatReplyPayload`: non-empty text, non-empty mediaUrl, or a
non-empty mediaUrls list. -/
def payloadHasContent (p : ReplyPayload) : Bool :=
  (p.text.getD "") != "" || (p.mediaUrl.getD "") != "" || (p.mediaUrls.getD []).length > 0

/-- The backwards scan of `resolveHeartbeatReplyPayload` (lines 234-240):
walk the list from the last index down and return the first payload with
content. -/
def lastContentPayload : List ReplyPayload → Option ReplyPayload
  | [] => none
  | p :: rest =>
    match lastContentPayload rest with
    | some q => some q
    | none => if payloadHasContent p then some p else none

/-- Embeds `resolveHeartbeatReplyPayload` (heartbeat-runner.ts lines
229-242). -/
def resolveHeartbeatReplyPayload : ReplyResult → Option ReplyPayload
  | .undef => none
  | .single p => some p
  | .many l => lastContentPayload l

/-- Whether a payload is a reasoning side-payload: its text, left-trimmed,
starts with the literal reasoning marker. -/
def isReasoningPayload (p : ReplyPayload) : Bool :=
  strStartsWith (strTrimLeft (p.text.getD "")) "Reasoning:"

/-- Embeds `resolveHeartbeatReasoningPayloads` (heartbeat-runner.ts lines
244-252). -/
def resolveHeartbeatReasoningPayloads : ReplyResult → List ReplyPayload
  | .undef => []
  | .single p => [p].filter isReasoningPayload
  | .many l => l.filter isReasoningPayload

/-- Embeds `restoreHeartbeatUpdatedAt` (heartbeat-runner.ts lines
489-508) as a pure transformation of the session entry currently in the
store: when a pre-run `updatedAt` was recorded and the entry still
exists, its `updatedAt` becomes the max of the current and the pre-run
value. -/
def restoreHeartbeatUpdatedAt (current : Option SessionEntry) (updatedAt : Option Nat) :
    Option SessionEntry :=
  match updatedAt with
  | none => current
  | some prev =>
    match current with
    | none => none
    | some e =>
      let next := max (e.updatedAt.getD 0) prev
      if e.updatedAt = some next then some e
      else some { e with updatedAt := some next }

/-- Modelled from the spec: `isWhatsAppGroupJid` from
src/whatsapp/normalize.ts (not provided in src/): group JIDs carry the
`@g.us` suffix. -/
def isWhatsAppGroupJid (s : String) : Bool := strEndsWith (strToLower s) "@g.us"

/-- Modelled from the spec: `normalizeWhatsAppTarget` from
src/whatsapp/normalize.ts (not provided in src/): strip the `whatsapp:`
channel prefix, lowercase group JIDs, and canonicalize phone numbers to
a plus sign followed by their digits; a target with no digits and no JID
is rejected.  Callers pass targets trimmed. -/
def normalizeWhatsAppTarget (s : String) : Option String :=
  let t := if strStartsWith (strToLower s) "whatsapp:" then strTrim (strDrop s 9) else s
  if strContainsChar t '@' then some (strToLower t)
  else
    let ds := t.data.filter Char.isDigit
    if ds.isEmpty then none else some ("+" ++ String.mk ds)

/-- The trimmed, non-empty entries of a WhatsApp allow-list (the
`allowListRaw` local of `resolveTarget`). -/
def whatsappAllowListRaw (allowFrom : List String) : List String :=
  (allowFrom.map strTrim).filter (· != "")

/-- Whether a WhatsApp allow-list contains the wildcard entry. -/
def whatsappHasWildcard (allowFrom : List String) : Bool :=
  (whatsappAllowListRaw allowFrom).contains "*"

/-- The normalized non-wildcard entries of a WhatsApp allow-list (the
`allowList` local of `resolveTarget`). -/
def whatsappAllowList (allowFrom : List String) : List String :=
  ((whatsappAllowListRaw allowFrom).filter (· != "*")).filterMap normalizeWhatsAppTarget

/-- Embeds `whatsappPlugin.outbound.resolveTarget`
(src/channels/plugins/whatsapp.ts lines 305-353).  The error branch of
the source returns a missing-target error object, modelled with
`Except.error`. -/
def whatsappResolveTarget (reqTo : Option String) (allowFrom : List String) (mode : String) :
    Except String String :=
  let trimmed := strTrim (reqTo.getD "")
  let hasWildcard := whatsappHasWildcard allowFrom
  let allowList := whatsappAllowList allowFrom
  if trimmed != "" then
    match normalizeWhatsAppTarget trimmed with
    | none =>
      match allowList with
      | a :: _ =>
        if mode == "implicit" || mode == "heartbeat" then .ok a
        else .error "whatsapp-missing-target"
      | [] => .error "whatsapp-missing-target"
    | some normalizedTo =>
      if isWhatsAppGroupJid normalizedTo then .ok normalizedTo
      else if mode == "implicit" || mode == "heartbeat" then
        match allowList with
        | [] => .ok normalizedTo
        | a :: rest =>
          if hasWildcard then .ok normalizedTo
          else if (a :: rest).contains normalizedTo then .ok normalizedTo
          else .ok a
      else .ok normalizedTo
  else
    match allowList with
    | a :: _ => .ok a
    | [] => .error "whatsapp-missing-target"

/-- Delivery target computed for one heartbeat run (the output shape of
`resolveHeartbeatDeliveryTarget` from src/infra/outbound/targets.ts). -/
structure DeliveryTarget where
  channel : String
  «to» : Option String := none
  accountId : Option String := none
  reason : Option String := none
  lastChannel : Option String := none
  lastAccountId : Option String := none
deriving Repr, DecidableEq

/-- Modelled from the spec: the set of internal-only pseudo-channels
(web chat and the internal message channel) that never receive heartbeat
deliveries. -/
def isInternalChannel (c : String) : Bool := c == "webchat" || c == "internal"

/-- Modelled from the spec: `resolveHeartbeatDeliveryTarget` from
src/infra/outbound/targets.ts (not provided in src/), following spec
section 4.1: `target: "none"` short-circuits; `target: "last"` uses the
last external route from the session entry; an explicit channel target
uses the configured recipient; WhatsApp recipients are passed through
the channel resolver in heartbeat mode, reporting
`"allowFrom-fallback"` when the resolver substituted an allow-list
entry for the requested individual recipient. -/
def resolveHeartbeatDeliveryTarget (cfg : ClawdbotConfig) (entry : Option SessionEntry)
    (heartbeat : Option HeartbeatConfig) : DeliveryTarget :=
  let merged :=
    mergeHeartbeatConfig (cfg.agentsDefaultsHeartbeat.getD {}) (heartbeat.getD {})
  let target := merged.target.getD "last"
  let lastTo := entry.bind (·.lastTo)
  let lastAccountId := entry.bind (·.lastAccountId)
  let extLastChannel :=
    match entry.bind (·.lastChannel) with
    | some c => if isInternalChannel c then none else some c
    | none => none
  let allowFrom := cfg.whatsappAllowFrom.getD []
  if target == "none" then
    { channel := "none", reason := some "target-none" }
  else if target == "last" then
    match extLastChannel, lastTo with
    | some c, some t =>
      if c == "whatsapp" then
        match whatsappResolveTarget (some t) allowFrom "heartbeat" with
        | .ok resolved =>
          { channel := "whatsapp", «to» := some resolved,
            reason :=
              if normalizeWhatsAppTarget (strTrim t) == some resolved then none
              else some "allowFrom-fallback",
            lastChannel := some c, lastAccountId }
        | .error _ =>
          { channel := "none", reason := some "no-target",
            lastChannel := some c, lastAccountId }
      else
        { channel := c, «to» := some t, lastChannel := some c, lastAccountId }
    | _, _ => { channel := "none", reason := some "no-target" }
  else if target == "whatsapp" then
    match whatsappResolveTarget merged.«to» allowFrom "heartbeat" with
    | .ok resolved =>
      { channel := "whatsapp", «to» := some resolved,
        reason :=
          match merged.«to» with
          | some t =>
            if normalizeWhatsAppTarget (strTrim t) == some resolved then none
            else some "allowFrom-fallback"
          | none => some "allowFrom-fallback",
        lastChannel := extLastChannel, lastAccountId }
    | .error _ =>
      { channel := "none", reason := some "no-target",
        lastChannel := extLastChannel, lastAccountId }
  else
    { channel := target, «to» := merged.«to», lastChannel := extLastChannel, lastAccountId }

/-- Result of one heartbeat run (`HeartbeatRunResult`); the duration
field of the source, derived from wall-clock reads, is omitted. -/
inductive HeartbeatRunResult where
  | ran
  | skipped (reason : String)
  | failed (reason : String)
deriving Repr, DecidableEq

/-- One outbound message handed to the dispatcher: recipient, text and
media urls (the dispatcher sends each payload to `delivery.to`). -/
structure Delivered where
  «to» : String
  text : String
  mediaUrls : List String
deriving Repr, DecidableEq

/-- Channel readiness probe result (`checkReady`). -/
structure ReadyResult where
  ok : Bool
  reason : String
deriving Repr, DecidableEq

/-- All inputs of one `runHeartbeatOnce` call: the configuration and
options plus the observed behavior of every external collaborator.
`entry` is the session-store entry at run start; `entryMid` is the entry
as reloaded after the agent call (the store may have been rewritten
while the agent ran); `reply` is the agent invocation outcome
(`Except.error` models a thrown exception), `checkReady` the channel
readiness probe (`none` when the channel exposes no probe), and
`dispatch` the outcome of `deliverOutboundPayloads`. -/
structure RunInput where
  cfg : ClawdbotConfig := {}
  agentId : Option String := none
  heartbeatOverride : Option HeartbeatConfig := none
  heartbeatsEnabled : Bool := true
  queueSize : Nat := 0
  entry : Option SessionEntry := none
  entryMid : Option SessionEntry := none
  startedAt : Nat := 0
  reply : Except String ReplyResult := .ok .undef
  prefixText : Option String := none
  ackToken : String := HEARTBEAT_ACK_TOKEN
  checkReady : Option ReadyResult := none
  dispatch : Except String Unit := .ok ()

/-- Observable outcome of one `runHeartbeatOnce` call: the returned
result, the payload list handed to the dispatcher (empty when no
delivery happened), the session-store entry for the main session key
after the run, how many times the agent was invoked, and whether the
dispatcher was called at all. -/
structure RunOutcome where
  result : HeartbeatRunResult
  delivered : List Delivered
  entryAfter : Option SessionEntry
  agentInvocations : Nat
  dispatchAttempted : Bool
deriving Repr, DecidableEq

/-- The heartbeat config used by a run: the explicit override from the
options, else the merged per-agent config (heartbeat-runner.ts line 543). -/
def effectiveHeartbeat (i : RunInput) : Option HeartbeatConfig :=
  match i.heartbeatOverride with
  | some h => some h
  | none =>
    resolveHeartbeatConfig i.cfg
      (some (normalizeAgentId (i.agentId.getD (resolveDefaultAgentId i.cfg))))

/-- The delivery target computed by a run (heartbeat-runner.ts line 562). -/
def runDeliveryTarget (i : RunInput) : DeliveryTarget :=
  resolveHeartbeatDeliveryTarget i.cfg i.entry (effectiveHeartbeat i)

/-- The normalized agent id of a run (heartbeat-runner.ts line 542). -/
def runAgentIdNorm (i : RunInput) : String :=
  normalizeAgentId (i.agentId.getD (resolveDefaultAgentId i.cfg))

/-- The ack-length threshold of a run (heartbeat-runner.ts line 632). -/
def runAckMax (i : RunInput) : Nat :=
  resolveHeartbeatAckMaxChars i.cfg (effectiveHeartbeat i)

/-- The normalized main reply of a run (heartbeat-runner.ts lines 633-637). -/
def mainNormalized (i : RunInput) (p : ReplyPayload) : NormalizedReply :=
  normalizeHeartbeatReply p i.ackToken i.prefixText (runAckMax i)

/-- Whether the main payload is ack-suppressed (`shouldSkipMain`,
heartbeat-runner.ts line 638). -/
def mainShouldSkip (i : RunInput) (p : ReplyPayload) : Bool :=
  (mainNormalized i p).shouldSkip && !(mainNormalized i p).hasMedia

/-- The reasoning side-payloads of a run (heartbeat-runner.ts lines
610-613): collected only when `includeReasoning` is enabled, excluding
the main payload. -/
def runReasoningPayloads (i : RunInput) (r : ReplyResult) : List ReplyPayload :=
  if ((effectiveHeartbeat i).bind (·.includeReasoning)).getD false then
    (resolveHeartbeatReasoningPayloads r).filter
      fun p => some p != resolveHeartbeatReplyPayload r
  else []

/-- The dispatcher messages generated from the reasoning side-payloads. -/
def runReasoningDelivered (i : RunInput) (r : ReplyResult) (toAddr : String) :
    List Delivered :=
  (runReasoningPayloads i r).map fun rp => ⟨toAddr, rp.text.getD "", []⟩

/-- The media url list attached to the main payload
(`replyPayload.mediaUrls ?? (replyPayload.mediaUrl ? [mediaUrl] : [])`). -/
def mainMediaUrls (p : ReplyPayload) : List String :=
  match p.mediaUrls with
  | some l => l
  | none => if (p.mediaUrl.getD "") != "" then [p.mediaUrl.getD ""] else []

/-- The no-target branch condition of `runHeartbeatOnce`
(heartbeat-runner.ts line 694): the delivery channel is "none" or no
recipient resolved. -/
def noTargetBranch (i : RunInput) : Bool :=
  (runDeliveryTarget i).channel == "none" || ((runDeliveryTarget i).«to».getD "") == ""

/-- Whether the channel readiness probe blocks delivery
(heartbeat-runner.ts lines 707-727): a probe exists and reports not
ready. -/
def readinessBlocked (i : RunInput) : Bool :=
  match i.checkReady with
  | some rr => !rr.ok
  | none => false

/-- The duplicate-suppression test (heartbeat-runner.ts lines 656-668):
the main payload is a duplicate when it is not ack-suppressed, carries no
media, its trimmed text equals the non-empty trimmed
`lastHeartbeatText`, and the previous heartbeat send is less than 24
hours old. -/
def isDuplicateMainPayload (entry : Option SessionEntry) (startedAt : Nat)
    (shouldSkipMain : Bool) (mediaUrls : List String) (normalizedText : String) : Bool :=
  let prevText := (entry.bind (·.lastHeartbeatText)).getD ""
  !shouldSkipMain && mediaUrls.isEmpty &&
    strTrim prevText != "" &&
    strTrim normalizedText == strTrim prevText &&
    (match entry.bind (·.lastHeartbeatSentAt) with
     | some t => startedAt - t < 86400000
     | none => false)

/-- Embeds `runHeartbeatOnce` (heartbeat-runner.ts lines 534-791) as a
pure function of `RunInput`.  The control flow follows the source: the
four gate checks, the agent call, empty-reply and ack suppression with
`updatedAt` restoration, duplicate suppression, the no-target path, the
readiness probe, dispatch of reasoning payloads then the main payload,
and recording of the delivered heartbeat text; the single top-level
try/catch maps collaborator exceptions to a `failed` result. -/
def runHeartbeatOnce (i : RunInput) : RunOutcome :=
  if !i.heartbeatsEnabled then
    ⟨.skipped "disabled", [], i.entry, 0, false⟩
  else if !isHeartbeatEnabledForAgent i.cfg (some (runAgentIdNorm i)) then
    ⟨.skipped "disabled", [], i.entry, 0, false⟩
  else if (resolveHeartbeatIntervalMs i.cfg none (effectiveHeartbeat i)).isNone then
    ⟨.skipped "disabled", [], i.entry, 0, false⟩
  else if i.queueSize > 0 then
    ⟨.skipped "requests-in-flight", [], i.entry, 0, false⟩
  else
    let previousUpdatedAt := i.entry.bind (·.updatedAt)
    let delivery := runDeliveryTarget i
    match i.reply with
    | .error e => ⟨.failed e, [], i.entryMid, 1, false⟩
    | .ok r =>
      match resolveHeartbeatReplyPayload r with
      | none =>
        ⟨.ran, [], restoreHeartbeatUpdatedAt i.entryMid previousUpdatedAt, 1, false⟩
      | some p =>
        if !payloadHasContent p then
          ⟨.ran, [], restoreHeartbeatUpdatedAt i.entryMid previousUpdatedAt, 1, false⟩
        else
          let normalized := mainNormalized i p
          let shouldSkipMain := mainShouldSkip i p
          let reasoningPayloads := runReasoningPayloads i r
          if shouldSkipMain && reasoningPayloads.isEmpty then
            ⟨.ran, [], restoreHeartbeatUpdatedAt i.entryMid previousUpdatedAt, 1, false⟩
          else
            let mediaUrls := mainMediaUrls p
            if isDuplicateMainPayload i.entry i.startedAt shouldSkipMain mediaUrls
                normalized.text then
              ⟨.ran, [], restoreHeartbeatUpdatedAt i.entryMid previousUpdatedAt, 1, false⟩
            else if noTargetBranch i then
              ⟨.ran, [], i.entryMid, 1, false⟩
            else if readinessBlocked i then
              ⟨.skipped ((i.checkReady.map (·.reason)).getD ""), [], i.entryMid, 1, false⟩
            else
              let toAddr := delivery.«to».getD ""
              let payloads : List Delivered :=
                runReasoningDelivered i r toAddr ++
                  (if shouldSkipMain then [] else [⟨toAddr, normalized.text, mediaUrls⟩])
              match i.dispatch with
              | .error e => ⟨.failed e, [], i.entryMid, 1, true⟩
              | .ok _ =>
                let entryAfter :=
                  if !shouldSkipMain && strTrim normalized.text != "" then
                    match i.entryMid with
                    | some cur =>
                      some { cur with
                        lastHeartbeatText := some normalized.text,
                        lastHeartbeatSentAt := some i.startedAt }
                    | none => none
                  else i.entryMid
                ⟨.ran, payloads, entryAfter, 1, true⟩

/-- The four gate checks at the head of `runHeartbeatOnce`
(heartbeat-runner.ts lines 544-557) all pass: global kill switch on,
agent enabled, interval resolved, queue empty. -/
def gatesPass (i : RunInput) : Prop :=
  i.heartbeatsEnabled = true ∧
  isHeartbeatEnabledForAgent i.cfg (some (runAgentIdNorm i)) = true ∧
  (resolveHeartbeatIntervalMs i.cfg none (effectiveHeartbeat i)).isNone = false ∧
  i.queueSize = 0

/-- Embeds the exception boundary of `runHeartbeatOnce`
(heartbeat-runner.ts lines 559-607): after the four gate checks, the
session-store load, delivery-target and sender resolution, and prompt
assembly (including the delivery-channel transcript read) run OUTSIDE
the try block that starts at line 607, so an exception thrown there
propagates out of `runHeartbeatOnce`; `pre` is the outcome of that
pre-try region, and everything from the agent call onward is the caught
region already modelled by `runHeartbeatOnce`. -/
def runHeartbeatOncePre (pre : Except String Unit) (i : RunInput) :
    Except String RunOutcome :=
  if !i.heartbeatsEnabled then
    .ok ⟨.skipped "disabled", [], i.entry, 0, false⟩
  else if !isHeartbeatEnabledForAgent i.cfg (some (runAgentIdNorm i)) then
    .ok ⟨.skipped "disabled", [], i.entry, 0, false⟩
  else if (resolveHeartbeatIntervalMs i.cfg none (effectiveHeartbeat i)).isNone then
    .ok ⟨.skipped "disabled", [], i.entry, 0, false⟩
  else if i.queueSize > 0 then
    .ok ⟨.skipped "requests-in-flight", [], i.entry, 0, false⟩
  else
    match pre with
    | .error e => .error e
    | .ok _ => .ok (runHeartbeatOnce i)

/-- The three run shapes that end with nothing delivered and restore
`updatedAt`: an empty agent reply (no payload, or a payload without
content), ack suppression of the main payload with no reasoning
side-payloads, or duplicate suppression. -/
def noDeliveryPath (i : RunInput) (r : ReplyResult) : Prop :=
  resolveHeartbeatReplyPayload r = none ∨
  (∃ p, resolveHeartbeatReplyPayload r = some p ∧ payloadHasContent p = false) ∨
  (∃ p, resolveHeartbeatReplyPayload r = some p ∧ payloadHasContent p = true ∧
    mainShouldSkip i p = true ∧ runReasoningPayloads i r = []) ∨
  (∃ p, resolveHeartbeatReplyPayload r = some p ∧ payloadHasContent p = true ∧
    isDuplicateMainPayload i.entry i.startedAt (mainShouldSkip i p) (mainMediaUrls p)
      (mainNormalized i p).text = true)

/-- One eligible agent tracked by the scheduler loop (`HeartbeatAgent`). -/
structure HeartbeatAgent where
  agentId : String
  heartbeat : Option HeartbeatConfig := none
deriving Repr, DecidableEq

/-- Lookup in the `lastRunByAgent` map, modelled as an association list. -/
def lookupLastRun (m : List (String × Nat)) (k : String) : Option Nat :=
  (m.find? fun kv => kv.1 == k).map (·.2)

/-- Update of the `lastRunByAgent` map: replace the binding when present,
append otherwise. -/
def setLastRun : List (String × Nat) → String → Nat → List (String × Nat)
  | [], k, v => [(k, v)]
  | (k0, v0) :: rest, k, v =>
    if k0 == k then (k0, v) :: rest else (k0, v0) :: setLastRun rest k v

/-- Outcome of one scheduler sweep: the result reported upward, the
updated last-run map, and the agents whose per-agent run was actually
invoked, in order. -/
structure SweepOutcome where
  result : HeartbeatRunResult
  lastRun : List (String × Nat)
  invoked : List String
deriving Repr, DecidableEq

/-- The per-agent loop body of the sweep in `startHeartbeatRunner`
(heartbeat-runner.ts lines 824-849): skip agents without a resolved
interval; on interval ticks skip agents whose own interval has not
elapsed; invoke the rest; return immediately on backpressure; advance
the last-run timestamp unless the run was skipped as disabled; report
`ran` when any agent ran, else `not-due` on interval ticks and
`disabled` otherwise. -/
def sweepGo (cfg : ClawdbotConfig) (results : String → HeartbeatRunResult)
    (isInterval : Bool) (now : Nat) :
    List HeartbeatAgent → List (String × Nat) → List String → Bool → SweepOutcome
  | [], lastRun, invoked, ranAny =>
    ⟨if ranAny then .ran
      else .skipped (if isInterval then "not-due" else "disabled"), lastRun, invoked⟩
  | a :: rest, lastRun, invoked, ranAny =>
    match resolveHeartbeatIntervalMs cfg none a.heartbeat with
    | none => sweepGo cfg results isInterval now rest lastRun invoked ranAny
    | some interval =>
      let notDue :=
        isInterval &&
          (match lookupLastRun lastRun a.agentId with
           | some t => decide (now - t < interval)
           | none => false)
      if notDue then sweepGo cfg results isInterval now rest lastRun invoked ranAny
      else
        let res := results a.agentId
        let invoked2 := invoked ++ [a.agentId]
        if res == .skipped "requests-in-flight" then ⟨res, lastRun, invoked2⟩
        else
          let lastRun2 :=
            if res == .skipped "disabled" then lastRun
            else setLastRun lastRun a.agentId now
          sweepGo cfg results isInterval now rest lastRun2 invoked2
            (ranAny || res == .ran)

/-- Embeds the wake handler `run` installed by `startHeartbeatRunner`
(heartbeat-runner.ts lines 810-850): the global kill switch and an empty
agent list report `skipped`/`disabled`; otherwise the sweep walks the
eligible agents. -/
def runHeartbeatSweep (cfg : ClawdbotConfig) (results : String → HeartbeatRunResult)
    (agents : List HeartbeatAgent) (hbEnabled : Bool) (isInterval : Bool) (now : Nat)
    (lastRun : List (String × Nat)) : SweepOutcome :=
  if !hbEnabled then ⟨.skipped "disabled", lastRun, []⟩
  else if agents.isEmpty then ⟨.skipped "disabled", lastRun, []⟩
  else sweepGo cfg results isInterval now agents lastRun [] false

/-- Configuration of the part_004 end-to-end tests: an explicit WhatsApp
heartbeat target with a wildcard allow-list. -/
def testCfg : ClawdbotConfig :=
  { agentsDefaultsHeartbeat :=
      some { every := some "5m", target := some "whatsapp", «to» := some "+1555" },
    whatsappAllowFrom := some ["*"] }

/-- Session entry of the part_004 end-to-end tests. -/
def testEntry : SessionEntry :=
  { sessionId := some "sid", updatedAt := some 1000,
    lastChannel := some "whatsapp", lastTo := some "+1555" }

example :
    runHeartbeatOnce
      { cfg :=
          { agentsDefaultsHeartbeat := some { every := some "30m" },
            agentsList :=
              some [{ id := some "main" },
                    { id := some "ops", heartbeat := some { every := some "1h" } }] },
        agentId := some "main" } =
    ⟨.skipped "disabled", [], none, 0, false⟩ := by decide

example :
    runHeartbeatOnce
      { cfg := testCfg, entry := some testEntry, entryMid := some testEntry,
        reply := .ok (.many [{ text := some "Let me check..." },
                             { text := some "Final alert" }]),
        checkReady := some ⟨true, "ok"⟩ } =
    ⟨.ran, [⟨"+1555", "Final alert", []⟩],
      some { testEntry with
        lastHeartbeatText := some "Final alert", lastHeartbeatSentAt := some 0 },
      1, true⟩ := by decide

example :
    runHeartbeatOnce
      { cfg := testCfg,
        entry := some { testEntry with
          lastHeartbeatText := some "Final alert", lastHeartbeatSentAt := some 0 },
        entryMid := some { testEntry with
          lastHeartbeatText := some "Final alert", lastHeartbeatSentAt := some 0 },
        startedAt := 60000,
        reply := .ok (.many [{ text := some "Final alert" }]),
        checkReady := some ⟨true, "ok"⟩ } =
    ⟨.ran, [],
      some { testEntry with
        lastHeartbeatText := some "Final alert", lastHeartbeatSentAt := some 0 },
      1, false⟩ := by decide

example :
    runHeartbeatOnce
      { cfg :=
          { testCfg with
            agentsDefaultsHeartbeat :=
              some { every := some "5m", target := some "whatsapp", «to» := some "+1555",
                     includeReasoning := some true } },
        entry := some testEntry, entryMid := some testEntry,
        reply := .ok (.many [{ text := some "Reasoning:\n_Because it helps_" },
                             { text := some "Final alert" }]),
        checkReady := some ⟨true, "ok"⟩ } =
    ⟨.ran,
      [⟨"+1555", "Reasoning:\n_Because it helps_", []⟩, ⟨"+1555", "Final alert", []⟩],
      some { testEntry with
        lastHeartbeatText := some "Final alert", lastHeartbeatSentAt := some 0 },
      1, true⟩ := by decide

example :
    runHeartbeatOnce
      { cfg :=
          { testCfg with
            agentsDefaultsHeartbeat :=
              some { every := some "5m", target := some "whatsapp", «to» := some "+1555",
                     includeReasoning := some true } },
        entry := some testEntry, entryMid := some testEntry,
        reply := .ok (.many [{ text := some "Reasoning:\n_Because it helps_" },
                             { text := some "HEARTBEAT_OK" }]),
        checkReady := some ⟨true, "ok"⟩ } =
    ⟨.ran, [⟨"+1555", "Reasoning:\n_Because it helps_", []⟩], some testEntry, 1, true⟩ := by
  decide

example :
    resolveHeartbeatDeliveryTarget
      { agentsDefaultsHeartbeat := some { target := some "none" } }
      (some { sessionId := some "sid", updatedAt := some 1 }) none =
    { channel := "none", reason := some "target-none" } := by decide

example :
    resolveHeartbeatDeliveryTarget {}
      (some { sessionId := some "sid", updatedAt := some 1,
              lastChannel := some "whatsapp", lastTo := some "+1555" }) none =
    { channel := "whatsapp", «to» := some "+1555", lastChannel := some "whatsapp" } := by decide

example :
    resolveHeartbeatDeliveryTarget
      { agentsDefaultsHeartbeat :=
          some { target := some "whatsapp", «to» := some "whatsapp:(555) 123" },
        whatsappAllowFrom := some ["*"] }
      (some { sessionId := some "sid", updatedAt := some 1 }) none =
    { channel := "whatsapp", «to» := some "+555123" } := by decide

example :
    resolveHeartbeatDeliveryTarget {}
      (some { sessionId := some "sid", updatedAt := some 1,
              lastChannel := some "webchat", lastTo := some "web" }) none =
    { channel := "none", reason := some "no-target" } := by decide

example :
    resolveHeartbeatDeliveryTarget
      { agentsDefaultsHeartbeat := some { target := some "whatsapp", «to» := some "+1999" },
        whatsappAllowFrom := some ["+1555", "+1666"] }
      (some { sessionId := some "sid", updatedAt := some 1,
              lastChannel := some "whatsapp", lastTo := some "+1222" }) none =
    { channel := "whatsapp", «to» := some "+1555", reason := some "allowFrom-fallback",
      lastChannel := some "whatsapp" } := by decide

example :
    resolveHeartbeatDeliveryTarget
      { whatsappAllowFrom := some ["+1555"] }
      (some { sessionId := some "sid", updatedAt := some 1,
              lastChannel := some "whatsapp",
              lastTo := some "120363401234567890@g.us" }) none =
    { channel := "whatsapp", «to» := some "120363401234567890@g.us",
      lastChannel := some "whatsapp" } := by decide

example :
    resolveHeartbeatDeliveryTarget
      { whatsappAllowFrom := some ["+1555"] }
      (some { sessionId := some "sid", updatedAt := some 1,
              lastChannel := some "whatsapp",
              lastTo := some "whatsapp:120363401234567890@G.US" }) none =
    { channel := "whatsapp", «to» := some "120363401234567890@g.us",
      lastChannel := some "whatsapp" } := by decide

example :
    resolveHeartbeatDeliveryTarget
      { agentsDefaultsHeartbeat := some { target := some "telegram", «to» := some "123" } }
      (some { sessionId := some "sid", updatedAt := some 1 }) none =
    { channel := "telegram", «to» := some "123" } := by decide

example :
    resolveHeartbeatDeliveryTarget
      { agentsDefaultsHeartbeat := some { target := some "telegram", «to» := some "123" } }
      (some { sessionId := some "sid", updatedAt := some 1,
              lastChannel := some "whatsapp", lastTo := some "+1999" })
      (some { target := some "whatsapp", «to» := some "+1555" }) =
    { channel := "whatsapp", «to» := some "+1555", lastChannel := some "whatsapp" } := by decide

example : normalizeAgentId "Ops" = "Ops" := by decide
example : normalizeAgentId "" = "main" := by decide
example : normalizeAgentId "My Agent!" = "my-agent" := by decide
example :
    isHeartbeatEnabledForAgent
      { agentsList := some [{ id := some "Ops", heartbeat := some { every := some "1h" } }] }
      (some "ops") = false := by decide

example : resolveHeartbeatIntervalMs {} none none = some 1800000 := by decide
example : resolveHeartbeatIntervalMs
    { agentsDefaultsHeartbeat := some { every := some "0m" } } none none = none := by decide
example : resolveHeartbeatIntervalMs
    { agentsDefaultsHeartbeat := some { every := some "oops" } } none none = none := by decide
example : resolveHeartbeatIntervalMs
    { agentsDefaultsHeartbeat := some { every := some "5" } } none none = some 300000 := by decide
example : resolveHeartbeatIntervalMs
    { agentsDefaultsHeartbeat := some { every := some "2h" } } none none = some 7200000 := by
  decide
example : resolveHeartbeatIntervalMs
    { agentsDefaultsHeartbeat := some { every := some "30m" } } none
    (some { every := some "5m" }) = some 300000 := by decide

/-- C9: for every config where `heartbeat.every` is unset, the resolved
heartbeat interval equals the default of 30 minutes in milliseconds; and
for every config where `every` parses to a non-positive duration (such
as "0m") or is an unparsable string, the resolved interval is `null`,
disabling heartbeats. -/
theorem claim_C9_interval_resolution :
    (∀ (cfg : ClawdbotConfig) (hb : Option HeartbeatConfig),
      hb.bind (·.every) = none →
      cfg.agentsDefaultsHeartbeat.bind (·.every) = none →
      resolveHeartbeatIntervalMs cfg none hb = some 1800000) ∧
    (∀ (cfg : ClawdbotConfig) (hb : Option HeartbeatConfig) (s : String),
      hb.bind (·.every) = some s →
      parseDurationMs (strTrim s) = none ∨ parseDurationMs (strTrim s) = some 0 →
      resolveHeartbeatIntervalMs cfg none hb = none) := by
  constructor
  · intro cfg hb h1 h2
    simp only [resolveHeartbeatIntervalMs, h1, h2]
    decide
  · intro cfg hb s h1 hbad
    simp only [resolveHeartbeatIntervalMs, h1]
    by_cases hs : s = ""
    · simp [hs]
    · simp only [if_neg hs]
      by_cases ht : strTrim s = ""
      · simp [ht]
      · simp only [if_neg ht]
        rcases hbad with h | h <;> simp [h]

/-- Witness for C9: the default config resolves to 30 minutes, and the
two disabled shapes from the test file resolve to `none`. -/
theorem claim_C9_interval_resolution_witness :
    resolveHeartbeatIntervalMs {} none none = some 1800000 ∧
    resolveHeartbeatIntervalMs {} none (some { every := some "0m" }) = none ∧
    resolveHeartbeatIntervalMs {} none (some { every := some "oops" }) = none :=
  ⟨claim_C9_interval_resolution.1 {} none rfl rfl,
   claim_C9_interval_resolution.2 {} (some { every := some "0m" }) "0m" rfl
     (Or.inr (by decide)),
   claim_C9_interval_resolution.2 {} (some { every := some "oops" }) "oops" rfl
     (Or.inl (by decide))⟩

/-- C6: if any agent entry has an explicit heartbeat block, heartbeats
are enabled exactly for those agents; otherwise they are enabled only
for the default agent; and `runHeartbeatOnce` for a non-enabled agent
returns a skipped result with reason "disabled". -/
theorem claim_C6_agent_gating :
    (∀ (cfg : ClawdbotConfig) (a : String),
      hasExplicitHeartbeatAgents cfg = true →
      (isHeartbeatEnabledForAgent cfg (some a) = true ↔
        ∃ e ∈ cfg.agentsList.getD [], e.heartbeat.isSome = true ∧
          normalizeAgentId (e.id.getD "") = normalizeAgentId a)) ∧
    (∀ (cfg : ClawdbotConfig) (a : String),
      hasExplicitHeartbeatAgents cfg = false →
      (isHeartbeatEnabledForAgent cfg (some a) = true ↔
        normalizeAgentId a = resolveDefaultAgentId cfg)) ∧
    (∀ i : RunInput,
      isHeartbeatEnabledForAgent i.cfg (some (runAgentIdNorm i)) = false →
      runHeartbeatOnce i = ⟨.skipped "disabled", [], i.entry, 0, false⟩) := by
  refine ⟨?_, ?_, ?_⟩
  · intro cfg a h
    simp only [isHeartbeatEnabledForAgent, h, if_pos, Option.getD_some, List.any_eq_true,
      Bool.and_eq_true, beq_iff_eq]
  · intro cfg a h
    simp only [isHeartbeatEnabledForAgent, h, Option.getD_some, beq_iff_eq]
    simp
  · intro i h
    by_cases he : i.heartbeatsEnabled
    · simp only [runHeartbeatOnce, he, h]
      simp
    · simp only [Bool.not_eq_true] at he
      simp only [runHeartbeatOnce, he]
      simp

/-- Witness for C6: the two-agent config of the test file enables only
the explicit heartbeat agent, and running the other agent is skipped as
disabled. -/
theorem claim_C6_agent_gating_witness :
    (isHeartbeatEnabledForAgent
      { agentsDefaultsHeartbeat := some { every := some "30m" },
        agentsList :=
          some [{ id := some "main" },
                { id := some "ops", heartbeat := some { every := some "1h" } }] }
      (some "ops") = true ↔
      ∃ e ∈ [({ id := some "main" } : AgentEntry),
             { id := some "ops", heartbeat := some { every := some "1h" } }],
        e.heartbeat.isSome = true ∧
          normalizeAgentId (e.id.getD "") = normalizeAgentId "ops") ∧
    runHeartbeatOnce
      { cfg :=
          { agentsDefaultsHeartbeat := some { every := some "30m" },
            agentsList :=
              some [{ id := some "main" },
                    { id := some "ops", heartbeat := some { every := some "1h" } }] },
        agentId := some "main" } =
      ⟨.skipped "disabled", [], none, 0, false⟩ :=
  ⟨claim_C6_agent_gating.1 _ "ops" (by decide),
   claim_C6_agent_gating.2.2 _ (by decide)⟩

/-- C5: on a channel with an explicit non-wildcard allow-list, a direct
recipient not in the allow-list is replaced by the first allow-list
entry with reason "allowFrom-fallback"; group targets pass through
unchanged even with an allow-list configured; a wildcard allow-list
accepts any individual target unmodified. -/
theorem claim_C5_whatsapp_allowlist :
    (∀ (allow : List String) (req n a : String) (rest : List String)
       (entry : Option SessionEntry),
      whatsappHasWildcard allow = false →
      whatsappAllowList allow = a :: rest →
      strTrim req ≠ "" →
      normalizeWhatsAppTarget (strTrim req) = some n →
      isWhatsAppGroupJid n = false →
      (a :: rest).contains n = false →
      whatsappResolveTarget (some req) allow "heartbeat" = .ok a ∧
        (let d := resolveHeartbeatDeliveryTarget
          { agentsDefaultsHeartbeat :=
              some { target := some "whatsapp", «to» := some req },
            whatsappAllowFrom := some allow } entry none
        d.channel = "whatsapp" ∧ d.«to» = some a ∧
          d.reason = some "allowFrom-fallback")) ∧
    (∀ (allow : List String) (req n : String) (entry : Option SessionEntry),
      strTrim req ≠ "" →
      normalizeWhatsAppTarget (strTrim req) = some n →
      isWhatsAppGroupJid n = true →
      whatsappResolveTarget (some req) allow "heartbeat" = .ok n ∧
        (let d := resolveHeartbeatDeliveryTarget
          { agentsDefaultsHeartbeat :=
              some { target := some "whatsapp", «to» := some req },
            whatsappAllowFrom := some allow } entry none
        d.channel = "whatsapp" ∧ d.«to» = some n ∧ d.reason = none)) ∧
    (∀ (allow : List String) (req n : String) (entry : Option SessionEntry),
      whatsappHasWildcard allow = true →
      strTrim req ≠ "" →
      normalizeWhatsAppTarget (strTrim req) = some n →
      whatsappResolveTarget (some req) allow "heartbeat" = .ok n ∧
        (let d := resolveHeartbeatDeliveryTarget
          { agentsDefaultsHeartbeat :=
              some { target := some "whatsapp", «to» := some req },
            whatsappAllowFrom := some allow } entry none
        d.channel = "whatsapp" ∧ d.«to» = some n ∧ d.reason = none)) := by
  refine ⟨?_, ?_, ?_⟩
  · intro allow req n a rest entry hW hA hne hn hg hc
    have hna : n ≠ a := by
      intro h
      rw [h] at hc
      simp [List.contains_cons] at hc
    have hres : whatsappResolveTarget (some req) allow "heartbeat" = .ok a := by
      simp only [whatsappResolveTarget, Option.getD_some, hW, hA, hn, hg]
      simp only [hc]
      simp [hne]
    refine ⟨hres, ?_⟩
    simp only [resolveHeartbeatDeliveryTarget, mergeHeartbeatConfig]
    simp only [Option.getD_some, Option.getD_none]
    simp only [Option.orElse, Option.getD_some]
    simp only [hres, hn]
    simp [hna]
  · intro allow req n entry hne hn hg
    have hres : whatsappResolveTarget (some req) allow "heartbeat" = .ok n := by
      simp only [whatsappResolveTarget, Option.getD_some, hn, hg]
      simp [hne]
    refine ⟨hres, ?_⟩
    simp only [resolveHeartbeatDeliveryTarget, mergeHeartbeatConfig]
    simp only [Option.getD_some, Option.getD_none]
    simp only [Option.orElse, Option.getD_some]
    simp only [hres, hn]
    simp
  · intro allow req n entry hW hne hn
    have hres : whatsappResolveTarget (some req) allow "heartbeat" = .ok n := by
      simp only [whatsappResolveTarget, Option.getD_some, hW, hn]
      by_cases hg : isWhatsAppGroupJid n
      · simp [hne, hg]
      · simp only [Bool.not_eq_true] at hg
        cases hA : whatsappAllowList allow with
        | nil => simp [hne, hg, hA]
        | cons a rest => simp [hne, hg, hA]
    refine ⟨hres, ?_⟩
    simp only [resolveHeartbeatDeliveryTarget, mergeHeartbeatConfig]
    simp only [Option.getD_some, Option.getD_none]
    simp only [Option.orElse, Option.getD_some]
    simp only [hres, hn]
    simp

/-- Witness for C5: the allow-list fallback, group pass-through, and
wildcard cases from the test file. -/
theorem claim_C5_whatsapp_allowlist_witness :
    (whatsappResolveTarget (some "+1999") ["+1555", "+1666"] "heartbeat" = .ok "+1555" ∧
      (let d := resolveHeartbeatDeliveryTarget
        { agentsDefaultsHeartbeat :=
            some { target := some "whatsapp", «to» := some "+1999" },
          whatsappAllowFrom := some ["+1555", "+1666"] } none none
      d.channel = "whatsapp" ∧ d.«to» = some "+1555" ∧
        d.reason = some "allowFrom-fallback")) ∧
    (whatsappResolveTarget (some "120363401234567890@G.US") ["+1555"] "heartbeat" =
        .ok "120363401234567890@g.us") ∧
    (whatsappResolveTarget (some "whatsapp:(555) 123") ["*"] "heartbeat" = .ok "+555123") :=
  ⟨claim_C5_whatsapp_allowlist.1 ["+1555", "+1666"] "+1999" "+1999" "+1555" ["+1666"] none
      (by decide) (by decide) (by decide) (by decide) (by decide) (by decide),
   (claim_C5_whatsapp_allowlist.2.1 ["+1555"] "120363401234567890@G.US"
      "120363401234567890@g.us" none (by decide) (by decide) (by decide)).1,
   (claim_C5_whatsapp_allowlist.2.2 ["*"] "whatsapp:(555) 123" "+555123" none
      (by decide) (by decide) (by decide)).1⟩

/-- C4: the main payload selected from a payload list is the last
element carrying non-empty text or media (the first content payload of
the reversed list); and for the WhatsApp end-to-end configuration with
wildcard allow-list and a two-payload reply, the dispatcher is called
exactly once, with recipient "+1555" and text "Final alert". -/
theorem claim_C4_last_payload_selection :
    (∀ l : List ReplyPayload,
      resolveHeartbeatReplyPayload (.many l) = l.reverse.find? payloadHasContent) ∧
    (runHeartbeatOnce
      { cfg := testCfg, entry := some testEntry, entryMid := some testEntry,
        reply := .ok (.many [{ text := some "checking..." },
                             { text := some "Final alert" }]),
        checkReady := some ⟨true, "ok"⟩ }).delivered =
      [⟨"+1555", "Final alert", []⟩] ∧
    (runHeartbeatOnce
      { cfg := testCfg, entry := some testEntry, entryMid := some testEntry,
        reply := .ok (.many [{ text := some "checking..." },
                             { text := some "Final alert" }]),
        checkReady := some ⟨true, "ok"⟩ }).result = .ran := by
  refine ⟨?_, by decide, by decide⟩
  intro l
  show lastContentPayload l = l.reverse.find? payloadHasContent
  induction l with
  | nil => rfl
  | cons p rest ih =>
    simp only [lastContentPayload, ih, List.reverse_cons, List.find?_append]
    cases rest.reverse.find? payloadHasContent with
    | none =>
      simp only [Option.or]
      simp only [List.find?]
      cases payloadHasContent p <;> rfl
    | some q => rfl

/-- C3: when a run ends with nothing delivered (empty reply, ack
suppression with no reasoning payloads, or duplicate suppression), the
session entry's `updatedAt` is restored to the maximum of its current
value and its pre-run value, so it never goes backward and heartbeat
execution alone never advances it beyond the pre-run value. -/
theorem claim_C3_updatedAt_restore :
    (∀ (cur : SessionEntry) (prevOpt : Option Nat) (e : SessionEntry),
      restoreHeartbeatUpdatedAt (some cur) prevOpt = some e →
      e.updatedAt.getD 0 = max (cur.updatedAt.getD 0) (prevOpt.getD 0) ∧
        cur.updatedAt.getD 0 ≤ e.updatedAt.getD 0) ∧
    (∀ (i : RunInput) (r : ReplyResult),
      gatesPass i → i.reply = .ok r → noDeliveryPath i r →
      (runHeartbeatOnce i).delivered = [] ∧
        (runHeartbeatOnce i).entryAfter =
          restoreHeartbeatUpdatedAt i.entryMid (i.entry.bind (·.updatedAt))) := by
  constructor
  · intro cur prevOpt e h
    cases prevOpt with
    | none =>
      simp only [restoreHeartbeatUpdatedAt, Option.some.injEq] at h
      subst h
      exact ⟨by simp, Nat.le_refl _⟩
    | some prev =>
      simp only [restoreHeartbeatUpdatedAt] at h
      cases hcu : cur.updatedAt with
      | none =>
        rw [hcu] at h
        simp only [Option.getD_none] at h
        rw [if_neg (by simp)] at h
        simp only [Option.some.injEq] at h
        subst h
        refine ⟨?_, ?_⟩ <;> simp only [hcu, Option.getD_some, Option.getD_none] <;> omega
      | some u =>
        rw [hcu] at h
        simp only [Option.getD_some] at h
        by_cases hu : u = max u prev
        · rw [if_pos (congrArg some hu)] at h
          simp only [Option.some.injEq] at h
          subst h
          refine ⟨?_, ?_⟩ <;> simp only [hcu, Option.getD_some] <;> omega
        · rw [if_neg (fun hh => hu (Option.some.inj hh))] at h
          simp only [Option.some.injEq] at h
          subst h
          refine ⟨?_, ?_⟩ <;> simp only [hcu, Option.getD_some] <;> omega
  · intro i r hgate hreply hpath
    obtain ⟨h1, h2, h3, h4⟩ := hgate
    have hq : ¬ i.queueSize > 0 := by omega
    rcases hpath with hp | ⟨p, hp, hpc⟩ | ⟨p, hp, hpc, hskip, hreas⟩ | ⟨p, hp, hpc, hdup⟩
    · simp [runHeartbeatOnce, h1, h2, h3, hq, hreply, hp]
    · simp [runHeartbeatOnce, h1, h2, h3, hq, hreply, hp, hpc]
    · simp [runHeartbeatOnce, h1, h2, h3, hq, hreply, hp, hpc, hskip, hreas]
    · by_cases hsk : (mainShouldSkip i p && (runReasoningPayloads i r).isEmpty) = true
      · simp [runHeartbeatOnce, h1, h2, h3, hq, hreply, hp, hpc, hsk]
      · simp [runHeartbeatOnce, h1, h2, h3, hq, hreply, hp, hpc, hsk, hdup]

/-- Witness for C3: a concrete HEARTBEAT_OK run whose entry was rewritten
mid-run restores `updatedAt` to the pre-run maximum. -/
theorem claim_C3_updatedAt_restore_witness :
    ((SessionEntry.updatedAt { sessionId := some "sid", updatedAt := some 1000 }).getD 0 =
      max ((SessionEntry.updatedAt { sessionId := some "sid", updatedAt := some 500 }).getD 0)
        ((some 1000 : Option Nat).getD 0) ∧
      (SessionEntry.updatedAt
        { sessionId := some "sid", updatedAt := some 500 }).getD 0 ≤
        (SessionEntry.updatedAt { sessionId := some "sid", updatedAt := some 1000 }).getD 0) ∧
    ((runHeartbeatOnce
      { cfg := testCfg,
        entry := some { testEntry with updatedAt := some 1000 },
        entryMid := some { testEntry with updatedAt := some 500 },
        reply := .ok (.many [{ text := some "HEARTBEAT_OK" }]),
        checkReady := some ⟨true, "ok"⟩ }).delivered = [] ∧
      (runHeartbeatOnce
        { cfg := testCfg,
          entry := some { testEntry with updatedAt := some 1000 },
          entryMid := some { testEntry with updatedAt := some 500 },
          reply := .ok (.many [{ text := some "HEARTBEAT_OK" }]),
          checkReady := some ⟨true, "ok"⟩ }).entryAfter =
        restoreHeartbeatUpdatedAt (some { testEntry with updatedAt := some 500 })
          ((some { testEntry with updatedAt := some 1000 } : Option SessionEntry).bind
            (·.updatedAt))) :=
  ⟨claim_C3_updatedAt_restore.1 { sessionId := some "sid", updatedAt := some 500 }
      (some 1000) { sessionId := some "sid", updatedAt := some 1000 } (by decide),
   claim_C3_updatedAt_restore.2
      { cfg := testCfg,
        entry := some { testEntry with updatedAt := some 1000 },
        entryMid := some { testEntry with updatedAt := some 500 },
        reply := .ok (.many [{ text := some "HEARTBEAT_OK" }]),
        checkReady := some ⟨true, "ok"⟩ }
      (.many [{ text := some "HEARTBEAT_OK" }])
      ⟨rfl, by decide, by decide, rfl⟩ rfl
      (Or.inr (Or.inr (Or.inl
        ⟨{ text := some "HEARTBEAT_OK" }, by decide, by decide, by decide, by decide⟩)))⟩

/-- C1: the ack token is recognized only at the start or end of the main
payload text (a mid-string occurrence leaves the text untouched); when
the strip marks the reply as an ack and the payload has no media, the
main payload is suppressed entirely — nothing is dispatched when there
are no reasoning side-payloads, and only the reasoning side-payloads are
dispatched when there are some; when the remainder is kept (too long, or
media present), the main payload is delivered with the token stripped. -/
theorem claim_C1_ack_token_handling :
    (∀ (text token : String) (maxAck : Nat),
      strStartsWith (strTrim text) token = false →
      strEndsWith (strTrim text) token = false →
      stripHeartbeatToken (some text) token maxAck = ⟨text, false⟩) ∧
    (∀ (i : RunInput) (r : ReplyResult) (p : ReplyPayload),
      gatesPass i → i.reply = .ok r →
      resolveHeartbeatReplyPayload r = some p →
      payloadHasContent p = true →
      (stripHeartbeatToken p.text i.ackToken (runAckMax i)).shouldSkip = true →
      payloadHasMedia p = false →
      runReasoningPayloads i r = [] →
      runHeartbeatOnce i =
        ⟨.ran, [], restoreHeartbeatUpdatedAt i.entryMid (i.entry.bind (·.updatedAt)),
          1, false⟩) ∧
    (∀ (i : RunInput) (r : ReplyResult) (p : ReplyPayload),
      gatesPass i → i.reply = .ok r →
      resolveHeartbeatReplyPayload r = some p →
      payloadHasContent p = true →
      (stripHeartbeatToken p.text i.ackToken (runAckMax i)).shouldSkip = true →
      payloadHasMedia p = false →
      (runReasoningPayloads i r).isEmpty = false →
      noTargetBranch i = false → readinessBlocked i = false → i.dispatch = .ok () →
      runHeartbeatOnce i =
        ⟨.ran, runReasoningDelivered i r ((runDeliveryTarget i).«to».getD ""),
          i.entryMid, 1, true⟩) ∧
    (∀ (i : RunInput) (r : ReplyResult) (p : ReplyPayload),
      gatesPass i → i.reply = .ok r →
      i.prefixText = none →
      resolveHeartbeatReplyPayload r = some p →
      payloadHasContent p = true →
      mainShouldSkip i p = false →
      isDuplicateMainPayload i.entry i.startedAt (mainShouldSkip i p) (mainMediaUrls p)
        (mainNormalized i p).text = false →
      noTargetBranch i = false → readinessBlocked i = false → i.dispatch = .ok () →
      (runHeartbeatOnce i).result = .ran ∧
        (runHeartbeatOnce i).delivered =
          runReasoningDelivered i r ((runDeliveryTarget i).«to».getD "") ++
            [⟨(runDeliveryTarget i).«to».getD "",
              (stripHeartbeatToken p.text i.ackToken (runAckMax i)).text,
              mainMediaUrls p⟩]) := by
  refine ⟨?_, ?_, ?_, ?_⟩
  · intro text token maxAck h1 h2
    simp [stripHeartbeatToken, h1, h2]
  · intro i r p hgate hreply hp hpc hstrip hmedia hreas
    obtain ⟨h1, h2, h3, h4⟩ := hgate
    have hq : ¬ i.queueSize > 0 := by omega
    have hskip : mainShouldSkip i p = true := by
      simp [mainShouldSkip, mainNormalized, normalizeHeartbeatReply, hstrip, hmedia]
    simp [runHeartbeatOnce, h1, h2, h3, hq, hreply, hp, hpc, hskip, hreas]
  · intro i r p hgate hreply hp hpc hstrip hmedia hreas hnt hready hdisp
    obtain ⟨h1, h2, h3, h4⟩ := hgate
    have hq : ¬ i.queueSize > 0 := by omega
    have hskip : mainShouldSkip i p = true := by
      simp [mainShouldSkip, mainNormalized, normalizeHeartbeatReply, hstrip, hmedia]
    have hdup : isDuplicateMainPayload i.entry i.startedAt true
        (mainMediaUrls p) (mainNormalized i p).text = false := by
      simp [isDuplicateMainPayload]
    simp [runHeartbeatOnce, h1, h2, h3, hq, hreply, hp, hpc, hskip, hreas, hdup, hnt,
      hready, hdisp]
  · intro i r p hgate hreply hpre hp hpc hskip hdup hnt hready hdisp
    obtain ⟨h1, h2, h3, h4⟩ := hgate
    have hq : ¬ i.queueSize > 0 := by omega
    have htext : (mainNormalized i p).text =
        (stripHeartbeatToken p.text i.ackToken (runAckMax i)).text := by
      by_cases hs : (stripHeartbeatToken p.text i.ackToken (runAckMax i)).shouldSkip = true ∧
          payloadHasMedia p = false
      · exfalso
        have : mainShouldSkip i p = true := by
          simp [mainShouldSkip, mainNormalized, normalizeHeartbeatReply, hs.1, hs.2]
        rw [this] at hskip
        cases hskip
      · simp only [mainNormalized, normalizeHeartbeatReply, hpre]
        rcases Decidable.not_and_iff_or_not.mp hs with hs1 | hs2
        · simp only [Bool.not_eq_true] at hs1
          simp [hs1]
        · have hs2' : payloadHasMedia p = true := by
            cases hx : payloadHasMedia p
            · exact absurd hx hs2
            · rfl
          simp [hs2']
    rw [hskip, htext] at hdup
    refine ⟨?_, ?_⟩ <;>
      simp [runHeartbeatOnce, h1, h2, h3, hq, hreply, hp, hpc, hskip, hdup, hnt, hready,
        hdisp, htext]

/-- Witness for C1: the test payloads HEARTBEAT_OK with and without a
reasoning side-payload, and an over-threshold remainder with
`ackMaxChars` zero that is delivered stripped. -/
theorem claim_C1_ack_token_handling_witness :
    stripHeartbeatToken (some "say HEARTBEAT_OK twice") "HEARTBEAT_OK" 300 =
      ⟨"say HEARTBEAT_OK twice", false⟩ ∧
    runHeartbeatOnce
      { cfg := testCfg, entry := some testEntry, entryMid := some testEntry,
        reply := .ok (.many [{ text := some "HEARTBEAT_OK" }]),
        checkReady := some ⟨true, "ok"⟩ } =
      ⟨.ran, [], some testEntry, 1, false⟩ ∧
    (runHeartbeatOnce
      { cfg :=
          { testCfg with
            agentsDefaultsHeartbeat :=
              some { every := some "5m", target := some "whatsapp", «to» := some "+1555",
                     ackMaxChars := some 0 } },
        entry := some testEntry, entryMid := some testEntry,
        reply := .ok (.many [{ text := some "HEARTBEAT_OK all systems nominal" }]),
        checkReady := some ⟨true, "ok"⟩ }).delivered =
      [⟨"+1555", "all systems nominal", []⟩] := by
  refine ⟨?_, ?_, ?_⟩
  · exact claim_C1_ack_token_handling.1 "say HEARTBEAT_OK twice" "HEARTBEAT_OK" 300
      (by decide) (by decide)
  · have h := claim_C1_ack_token_handling.2.1
      { cfg := testCfg, entry := some testEntry, entryMid := some testEntry,
        reply := .ok (.many [{ text := some "HEARTBEAT_OK" }]),
        checkReady := some ⟨true, "ok"⟩ }
      (.many [{ text := some "HEARTBEAT_OK" }]) { text := some "HEARTBEAT_OK" }
      ⟨rfl, by decide, by decide, rfl⟩ rfl (by decide) (by decide) (by decide)
      (by decide) (by decide)
    rw [h]
    decide
  · have h := (claim_C1_ack_token_handling.2.2.2
      { cfg :=
          { testCfg with
            agentsDefaultsHeartbeat :=
              some { every := some "5m", target := some "whatsapp", «to» := some "+1555",
                     ackMaxChars := some 0 } },
        entry := some testEntry, entryMid := some testEntry,
        reply := .ok (.many [{ text := some "HEARTBEAT_OK all systems nominal" }]),
        checkReady := some ⟨true, "ok"⟩ }
      (.many [{ text := some "HEARTBEAT_OK all systems nominal" }])
      { text := some "HEARTBEAT_OK all systems nominal" }
      ⟨rfl, by decide, by decide, rfl⟩ rfl rfl rfl (by decide) (by decide) (by decide)
      (by decide) (by decide) rfl).2
    rw [h]
    decide

/-- C2: a main payload that survives ack-stripping, has no media, and
whose trimmed text equals the recorded non-empty `lastHeartbeatText` is
suppressed (reported as a successful run, with `updatedAt` restored and
nothing else updated) when the recorded send is less than 24 hours
before the run start; when 24 hours or more have elapsed, delivery
occurs. -/
theorem claim_C2_duplicate_suppression :
    (∀ (i : RunInput) (r : ReplyResult) (p : ReplyPayload) (last : String) (t : Nat),
      gatesPass i → i.reply = .ok r →
      resolveHeartbeatReplyPayload r = some p →
      payloadHasContent p = true →
      mainShouldSkip i p = false →
      mainMediaUrls p = [] →
      i.entry.bind (·.lastHeartbeatText) = some last →
      strTrim last ≠ "" →
      strTrim (mainNormalized i p).text = strTrim last →
      i.entry.bind (·.lastHeartbeatSentAt) = some t →
      i.startedAt - t < 86400000 →
      runHeartbeatOnce i =
        ⟨.ran, [], restoreHeartbeatUpdatedAt i.entryMid (i.entry.bind (·.updatedAt)),
          1, false⟩) ∧
    (∀ (i : RunInput) (r : ReplyResult) (p : ReplyPayload) (last : String) (t : Nat),
      gatesPass i → i.reply = .ok r →
      resolveHeartbeatReplyPayload r = some p →
      payloadHasContent p = true →
      mainShouldSkip i p = false →
      mainMediaUrls p = [] →
      i.entry.bind (·.lastHeartbeatText) = some last →
      strTrim last ≠ "" →
      strTrim (mainNormalized i p).text = strTrim last →
      i.entry.bind (·.lastHeartbeatSentAt) = some t →
      86400000 ≤ i.startedAt - t →
      noTargetBranch i = false → readinessBlocked i = false → i.dispatch = .ok () →
      (runHeartbeatOnce i).result = .ran ∧
        (runHeartbeatOnce i).delivered =
          runReasoningDelivered i r ((runDeliveryTarget i).«to».getD "") ++
            [⟨(runDeliveryTarget i).«to».getD "", (mainNormalized i p).text, []⟩]) := by
  constructor
  · intro i r p last t hgate hreply hp hpc hskip hmedia hlast hne heq ht htime
    obtain ⟨h1, h2, h3, h4⟩ := hgate
    have hq : ¬ i.queueSize > 0 := by omega
    have hdup : isDuplicateMainPayload i.entry i.startedAt false []
        (mainNormalized i p).text = true := by
      simp [isDuplicateMainPayload, hlast, ht, heq, hne, htime]
    simp [runHeartbeatOnce, h1, h2, h3, hq, hreply, hp, hpc, hskip, hmedia, hdup]
  · intro i r p last t hgate hreply hp hpc hskip hmedia hlast hne heq ht htime hnt
      hready hdisp
    obtain ⟨h1, h2, h3, h4⟩ := hgate
    have hq : ¬ i.queueSize > 0 := by omega
    have hlt : ¬ i.startedAt - t < 86400000 := by omega
    have hdupf : isDuplicateMainPayload i.entry i.startedAt false []
        (mainNormalized i p).text = false := by
      simp [isDuplicateMainPayload, ht, hlt]
    refine ⟨?_, ?_⟩ <;>
      simp [runHeartbeatOnce, h1, h2, h3, hq, hreply, hp, hpc, hskip, hmedia, hdupf,
        hnt, hready, hdisp]

/-- Witness for C2: the duplicate test from the test file is suppressed
at one minute after the recorded send, and the same reply is delivered
once 24 hours have elapsed. -/
theorem claim_C2_duplicate_suppression_witness :
    runHeartbeatOnce
      { cfg := testCfg,
        entry := some { testEntry with
          lastHeartbeatText := some "Final alert", lastHeartbeatSentAt := some 0 },
        entryMid := some { testEntry with
          lastHeartbeatText := some "Final alert", lastHeartbeatSentAt := some 0 },
        startedAt := 60000,
        reply := .ok (.many [{ text := some "Final alert" }]),
        checkReady := some ⟨true, "ok"⟩ } =
      ⟨.ran, [],
        restoreHeartbeatUpdatedAt
          (some { testEntry with
            lastHeartbeatText := some "Final alert", lastHeartbeatSentAt := some 0 })
          (some 1000), 1, false⟩ ∧
    (runHeartbeatOnce
      { cfg := testCfg,
        entry := some { testEntry with
          lastHeartbeatText := some "Final alert", lastHeartbeatSentAt := some 0 },
        entryMid := some { testEntry with
          lastHeartbeatText := some "Final alert", lastHeartbeatSentAt := some 0 },
        startedAt := 86400000,
        reply := .ok (.many [{ text := some "Final alert" }]),
        checkReady := some ⟨true, "ok"⟩ }).delivered =
      [⟨"+1555", "Final alert", []⟩] := by
  constructor
  · exact claim_C2_duplicate_suppression.1
      { cfg := testCfg,
        entry := some { testEntry with
          lastHeartbeatText := some "Final alert", lastHeartbeatSentAt := some 0 },
        entryMid := some { testEntry with
          lastHeartbeatText := some "Final alert", lastHeartbeatSentAt := some 0 },
        startedAt := 60000,
        reply := .ok (.many [{ text := some "Final alert" }]),
        checkReady := some ⟨true, "ok"⟩ }
      (.many [{ text := some "Final alert" }]) { text := some "Final alert" }
      "Final alert" 0
      ⟨rfl, by decide, by decide, rfl⟩ rfl (by decide) (by decide) (by decide) (by decide)
      rfl (by decide) (by decide) rfl (by decide)
  · have h := (claim_C2_duplicate_suppression.2
      { cfg := testCfg,
        entry := some { testEntry with
          lastHeartbeatText := some "Final alert", lastHeartbeatSentAt := some 0 },
        entryMid := some { testEntry with
          lastHeartbeatText := some "Final alert", lastHeartbeatSentAt := some 0 },
        startedAt := 86400000,
        reply := .ok (.many [{ text := some "Final alert" }]),
        checkReady := some ⟨true, "ok"⟩ }
      (.many [{ text := some "Final alert" }]) { text := some "Final alert" }
      "Final alert" 0
      ⟨rfl, by decide, by decide, rfl⟩ rfl (by decide) (by decide) (by decide) (by decide)
      rfl (by decide) (by decide) rfl (by decide) (by decide) (by decide) rfl).2
    rw [h]
    decide

theorem lookup_setLastRun_self (m : List (String × Nat)) (k : String) (v : Nat) :
    lookupLastRun (setLastRun m k v) k = some v := by
  induction m with
  | nil => simp [setLastRun, lookupLastRun]
  | cons kv rest ih =>
    obtain ⟨k0, v0⟩ := kv
    by_cases h : k0 = k
    · simp [setLastRun, lookupLastRun, h]
    · have hb : (k0 == k) = false := beq_eq_false_iff_ne.mpr h
      simp only [setLastRun, hb, Bool.false_eq_true, if_false]
      simpa [lookupLastRun, hb] using ih

theorem lookup_setLastRun_ne (m : List (String × Nat)) (k k2 : String) (v : Nat)
    (h : k ≠ k2) : lookupLastRun (setLastRun m k v) k2 = lookupLastRun m k2 := by
  induction m with
  | nil => simp [setLastRun, lookupLastRun, beq_eq_false_iff_ne.mpr h]
  | cons kv rest ih =>
    obtain ⟨k0, v0⟩ := kv
    by_cases h0 : k0 = k
    · subst h0
      simp [setLastRun, lookupLastRun, beq_eq_false_iff_ne.mpr h]
    · have hb : (k0 == k) = false := beq_eq_false_iff_ne.mpr h0
      simp only [setLastRun, hb, Bool.false_eq_true, if_false]
      by_cases h2 : k0 = k2
      · simp [lookupLastRun, h2]
      · have hb2 : (k0 == k2) = false := beq_eq_false_iff_ne.mpr h2
        simpa [lookupLastRun, hb2] using ih

theorem sweepGo_lastRun_not_mem (cfg : ClawdbotConfig)
    (results : String → HeartbeatRunResult) (isInterval : Bool) (now : Nat) :
    ∀ (agents : List HeartbeatAgent) (m : List (String × Nat)) (inv : List String)
      (ranAny : Bool) (k : String),
      k ∉ agents.map (·.agentId) →
      lookupLastRun (sweepGo cfg results isInterval now agents m inv ranAny).lastRun k =
        lookupLastRun m k := by
  intro agents
  induction agents with
  | nil => intro m inv ranAny k _; rfl
  | cons b rest ih =>
    intro m inv ranAny k hk
    simp only [List.map_cons, List.mem_cons] at hk
    push_neg at hk
    obtain ⟨hkb, hkrest⟩ := hk
    simp only [sweepGo]
    cases hInt : resolveHeartbeatIntervalMs cfg none b.heartbeat with
    | none => exact ih m inv ranAny k hkrest
    | some interval =>
      by_cases hdue : (isInterval &&
          (match lookupLastRun m b.agentId with
           | some t => decide (now - t < interval)
           | none => false)) = true
      · simp only [hdue, if_true]
        exact ih m inv ranAny k hkrest
      · simp only [Bool.not_eq_true] at hdue
        simp only [hdue, Bool.false_eq_true, if_false]
        by_cases hbp : (results b.agentId == .skipped "requests-in-flight") = true
        · simp only [hbp, if_true]
        · simp only [Bool.not_eq_true] at hbp
          simp only [hbp, Bool.false_eq_true, if_false]
          by_cases hdis : (results b.agentId == .skipped "disabled") = true
          · simp only [hdis, if_true]
            exact ih m _ _ k hkrest
          · simp only [Bool.not_eq_true] at hdis
            simp only [hdis, Bool.false_eq_true, if_false]
            rw [ih _ _ _ k hkrest]
            exact lookup_setLastRun_ne m b.agentId k now (fun h => hkb h.symm)

theorem sweepGo_backpressure_aborts (cfg : ClawdbotConfig)
    (results : String → HeartbeatRunResult) (isInterval : Bool) (now : Nat) :
    ∀ (agents : List HeartbeatAgent) (m : List (String × Nat)) (inv : List String)
      (ranAny : Bool) (a : String),
      a ∉ inv →
      a ∈ (sweepGo cfg results isInterval now agents m inv ranAny).invoked →
      results a = .skipped "requests-in-flight" →
      (sweepGo cfg results isInterval now agents m inv ranAny).result =
          .skipped "requests-in-flight" ∧
        (sweepGo cfg results isInterval now agents m inv ranAny).invoked.getLast? =
          some a := by
  intro agents
  induction agents with
  | nil =>
    intro m inv ranAny a hnin hin _
    exact absurd hin hnin
  | cons b rest ih =>
    intro m inv ranAny a hnin hin hbp
    simp only [sweepGo] at hin ⊢
    cases hInt : resolveHeartbeatIntervalMs cfg none b.heartbeat with
    | none =>
      simp only [hInt] at hin ⊢
      exact ih m inv ranAny a hnin hin hbp
    | some interval =>
      by_cases hdue : (isInterval &&
          (match lookupLastRun m b.agentId with
           | some t => decide (now - t < interval)
           | none => false)) = true
      · simp only [hInt, hdue, if_true] at hin ⊢
        exact ih m inv ranAny a hnin hin hbp
      · simp only [Bool.not_eq_true] at hdue
        simp only [hInt, hdue, Bool.false_eq_true, if_false] at hin ⊢
        by_cases hres : (results b.agentId == .skipped "requests-in-flight") = true
        · simp only [hres, if_true] at hin ⊢
          have hab : a = b.agentId := by
            rcases List.mem_append.mp hin with h | h
            · exact absurd h hnin
            · simpa using h
          subst hab
          refine ⟨by simpa using (beq_iff_eq.mp hres), ?_⟩
          simp [List.getLast?_concat]
        · simp only [Bool.not_eq_true] at hres
          simp only [hres, Bool.false_eq_true, if_false] at hin ⊢
          have hab : a ≠ b.agentId := by
            intro h
            rw [h] at hbp
            rw [hbp] at hres
            simp at hres
          have hnin2 : a ∉ inv ++ [b.agentId] := by
            intro h
            rcases List.mem_append.mp h with h | h
            · exact hnin h
            · exact hab (by simpa using h)
          exact ih _ _ _ a hnin2 hin hbp

theorem sweepGo_lastRun_spec (cfg : ClawdbotConfig)
    (results : String → HeartbeatRunResult) (isInterval : Bool) (now : Nat) :
    ∀ (agents : List HeartbeatAgent) (m : List (String × Nat)) (inv : List String)
      (ranAny : Bool) (a : String),
      (agents.map (·.agentId)).Nodup →
      a ∉ inv →
      a ∈ (sweepGo cfg results isInterval now agents m inv ranAny).invoked →
      ((results a ≠ .skipped "disabled" ∧ results a ≠ .skipped "requests-in-flight") →
        lookupLastRun (sweepGo cfg results isInterval now agents m inv ranAny).lastRun a =
          some now) ∧
      ((results a = .skipped "disabled" ∨ results a = .skipped "requests-in-flight") →
        lookupLastRun (sweepGo cfg results isInterval now agents m inv ranAny).lastRun a =
          lookupLastRun m a) := by
  intro agents
  induction agents with
  | nil =>
    intro m inv ranAny a _ hnin hin
    exact absurd hin hnin
  | cons b rest ih =>
    intro m inv ranAny a hnd hnin hin
    rw [List.map_cons] at hnd
    have hndrest : (rest.map (·.agentId)).Nodup := (List.nodup_cons.mp hnd).2
    have hbrest : b.agentId ∉ rest.map (·.agentId) := (List.nodup_cons.mp hnd).1
    simp only [sweepGo] at hin ⊢
    cases hInt : resolveHeartbeatIntervalMs cfg none b.heartbeat with
    | none =>
      simp only [hInt] at hin ⊢
      exact ih m inv ranAny a hndrest hnin hin
    | some interval =>
      by_cases hdue : (isInterval &&
          (match lookupLastRun m b.agentId with
           | some t => decide (now - t < interval)
           | none => false)) = true
      · simp only [hInt, hdue, if_true] at hin ⊢
        exact ih m inv ranAny a hndrest hnin hin
      · simp only [Bool.not_eq_true] at hdue
        simp only [hInt, hdue, Bool.false_eq_true, if_false] at hin ⊢
        by_cases hres : (results b.agentId == .skipped "requests-in-flight") = true
        · simp only [hres, if_true] at hin ⊢
          have hab : a = b.agentId := by
            rcases List.mem_append.mp hin with h | h
            · exact absurd h hnin
            · simpa using h
          have hval : results a = .skipped "requests-in-flight" := by
            rw [hab]
            exact beq_iff_eq.mp hres
          exact ⟨fun hcon => absurd hval hcon.2, fun _ => by simp⟩
        · simp only [Bool.not_eq_true] at hres
          simp only [hres, Bool.false_eq_true, if_false] at hin ⊢
          by_cases hab : a = b.agentId
          · by_cases hdis : (results b.agentId == .skipped "disabled") = true
            · simp only [hdis, if_true] at hin ⊢
              constructor
              · intro hcon
                rw [hab] at hcon
                exact absurd (beq_iff_eq.mp hdis) hcon.1
              · intro _
                rw [hab]
                exact sweepGo_lastRun_not_mem cfg results isInterval now rest _ _ _ _ hbrest
            · simp only [Bool.not_eq_true] at hdis
              simp only [hdis, Bool.false_eq_true, if_false] at hin ⊢
              constructor
              · intro _
                rw [hab,
                  sweepGo_lastRun_not_mem cfg results isInterval now rest _ _ _ _ hbrest]
                exact lookup_setLastRun_self m b.agentId now
              · intro hcase
                rcases hcase with h | h
                · rw [hab] at h
                  rw [h] at hdis
                  simp at hdis
                · rw [hab] at h
                  rw [h] at hres
                  simp at hres
          · have hnin2 : a ∉ inv ++ [b.agentId] := by
              intro h
              rcases List.mem_append.mp h with h | h
              · exact hnin h
              · exact hab (by simpa using h)
            by_cases hdis : (results b.agentId == .skipped "disabled") = true
            · simp only [hdis, if_true] at hin ⊢
              exact ih m _ _ a hndrest hnin2 hin
            · simp only [Bool.not_eq_true] at hdis
              simp only [hdis, Bool.false_eq_true, if_false] at hin ⊢
              have hstep := ih (setLastRun m b.agentId now) _ _ a hndrest hnin2 hin
              have hsame : lookupLastRun (setLastRun m b.agentId now) a =
                  lookupLastRun m a :=
                lookup_setLastRun_ne m b.agentId a now (fun h => hab h.symm)
              exact ⟨hstep.1, fun hc => (hstep.2 hc).trans hsame⟩

/-- C7: a heartbeat run facing a busy work queue is reported as skipped
with reason "requests-in-flight" without invoking the agent, and a sweep
that sees a backpressure result returns it immediately: the backpressure
agent is the last one invoked, so every remaining agent of the sweep is
left unevaluated. -/
theorem claim_C7_backpressure :
    (∀ i : RunInput,
      i.heartbeatsEnabled = true →
      isHeartbeatEnabledForAgent i.cfg (some (runAgentIdNorm i)) = true →
      (resolveHeartbeatIntervalMs i.cfg none (effectiveHeartbeat i)).isNone = false →
      0 < i.queueSize →
      runHeartbeatOnce i = ⟨.skipped "requests-in-flight", [], i.entry, 0, false⟩) ∧
    (∀ (cfg : ClawdbotConfig) (results : String → HeartbeatRunResult)
       (agents : List HeartbeatAgent) (hbEnabled isInterval : Bool) (now : Nat)
       (lastRun : List (String × Nat)) (a : String),
      a ∈ (runHeartbeatSweep cfg results agents hbEnabled isInterval now lastRun).invoked →
      results a = .skipped "requests-in-flight" →
      (runHeartbeatSweep cfg results agents hbEnabled isInterval now lastRun).result =
          .skipped "requests-in-flight" ∧
        (runHeartbeatSweep cfg results agents hbEnabled isInterval now
            lastRun).invoked.getLast? = some a) := by
  constructor
  · intro i h1 h2 h3 h4
    have hq : i.queueSize > 0 := h4
    simp [runHeartbeatOnce, h1, h2, h3, hq]
  · intro cfg results agents hbEnabled isInterval now lastRun a hin hbp
    by_cases he : hbEnabled = true
    · by_cases hag : agents.isEmpty = true
      · simp only [runHeartbeatSweep, he, hag] at hin ⊢
        simp at hin
      · simp only [Bool.not_eq_true] at hag
        simp only [runHeartbeatSweep, he, hag, Bool.not_true, Bool.false_eq_true,
          if_false] at hin ⊢
        exact sweepGo_backpressure_aborts cfg results isInterval now agents lastRun [] false
          a (by simp) hin hbp
    · simp only [Bool.not_eq_true] at he
      simp only [runHeartbeatSweep, he] at hin ⊢
      simp at hin

/-- Witness for C7: a busy-queue run is skipped without invocation, and a
two-agent sweep whose first agent reports backpressure stops after that
agent. -/
theorem claim_C7_backpressure_witness :
    runHeartbeatOnce { cfg := testCfg, queueSize := 1 } =
      ⟨.skipped "requests-in-flight", [], none, 0, false⟩ ∧
    (runHeartbeatSweep {} (fun _ => .skipped "requests-in-flight")
        [⟨"main", some { every := some "5m" }⟩, ⟨"ops", some { every := some "5m" }⟩]
        true false 0 []).result = .skipped "requests-in-flight" ∧
    (runHeartbeatSweep {} (fun _ => .skipped "requests-in-flight")
        [⟨"main", some { every := some "5m" }⟩, ⟨"ops", some { every := some "5m" }⟩]
        true false 0 []).invoked.getLast? = some "main" :=
  ⟨claim_C7_backpressure.1 { cfg := testCfg, queueSize := 1 } rfl (by decide) (by decide)
      (by decide),
   (claim_C7_backpressure.2 {} (fun _ => .skipped "requests-in-flight")
      [⟨"main", some { every := some "5m" }⟩, ⟨"ops", some { every := some "5m" }⟩]
      true false 0 [] "main" (by decide) rfl).1,
   (claim_C7_backpressure.2 {} (fun _ => .skipped "requests-in-flight")
      [⟨"main", some { every := some "5m" }⟩, ⟨"ops", some { every := some "5m" }⟩]
      true false 0 [] "main" (by decide) rfl).2⟩

/-- C10: in a sweep over agents with distinct ids, an invoked agent whose
result is neither skipped-as-disabled nor backpressure — failed results
included — has its last-run timestamp advanced to the sweep time, while
a disabled or backpressure result leaves its timestamp untouched (the
backpressure result exits the sweep before any update for that agent). -/
theorem claim_C10_lastrun_update :
    ∀ (cfg : ClawdbotConfig) (results : String → HeartbeatRunResult)
      (agents : List HeartbeatAgent) (hbEnabled isInterval : Bool) (now : Nat)
      (lastRun : List (String × Nat)) (a : String),
      (agents.map (·.agentId)).Nodup →
      a ∈ (runHeartbeatSweep cfg results agents hbEnabled isInterval now lastRun).invoked →
      ((results a ≠ .skipped "disabled" ∧ results a ≠ .skipped "requests-in-flight") →
        lookupLastRun
          (runHeartbeatSweep cfg results agents hbEnabled isInterval now lastRun).lastRun
          a = some now) ∧
      ((results a = .skipped "disabled" ∨ results a = .skipped "requests-in-flight") →
        lookupLastRun
          (runHeartbeatSweep cfg results agents hbEnabled isInterval now lastRun).lastRun
          a = lookupLastRun lastRun a) := by
  intro cfg results agents hbEnabled isInterval now lastRun a hnd hin
  by_cases he : hbEnabled = true
  · by_cases hag : agents.isEmpty = true
    · simp only [runHeartbeatSweep, he, hag] at hin ⊢
      simp at hin
    · simp only [Bool.not_eq_true] at hag
      simp only [runHeartbeatSweep, he, hag, Bool.not_true, Bool.false_eq_true,
        if_false] at hin ⊢
      exact sweepGo_lastRun_spec cfg results isInterval now agents lastRun [] false a hnd
        (by simp) hin
  · simp only [Bool.not_eq_true] at he
    simp only [runHeartbeatSweep, he] at hin ⊢
    simp at hin

/-- Witness for C10: a failed first agent gets its timestamp advanced,
and a disabled second agent keeps its previous timestamp. -/
theorem claim_C10_lastrun_update_witness :
    lookupLastRun
      (runHeartbeatSweep {}
        (fun id => if id == "ops" then .skipped "disabled" else .failed "boom")
        [⟨"main", some { every := some "5m" }⟩, ⟨"ops", some { every := some "5m" }⟩]
        true false 77 [("ops", 3)]).lastRun "main" = some 77 ∧
    lookupLastRun
      (runHeartbeatSweep {}
        (fun id => if id == "ops" then .skipped "disabled" else .failed "boom")
        [⟨"main", some { every := some "5m" }⟩, ⟨"ops", some { every := some "5m" }⟩]
        true false 77 [("ops", 3)]).lastRun "ops" =
      lookupLastRun [("ops", 3)] "ops" :=
  ⟨(claim_C10_lastrun_update {}
      (fun id => if id == "ops" then .skipped "disabled" else .failed "boom")
      [⟨"main", some { every := some "5m" }⟩, ⟨"ops", some { every := some "5m" }⟩]
      true false 77 [("ops", 3)] "main" (by decide) (by decide)).1
      (by refine ⟨?_, ?_⟩ <;> decide),
   (claim_C10_lastrun_update {}
      (fun id => if id == "ops" then .skipped "disabled" else .failed "boom")
      [⟨"main", some { every := some "5m" }⟩, ⟨"ops", some { every := some "5m" }⟩]
      true false 77 [("ops", 3)] "ops" (by decide) (by decide)).2
      (Or.inl (by decide))⟩

/-- Exhaustive case analysis of `runHeartbeatOnce`: a run is a gate
skip, an agent-invocation failure, a suppressed or no-target run, a
readiness skip, a successful dispatch, or a dispatch failure. -/
theorem runHeartbeatOnce_outcomes (i : RunInput) :
    (∃ r, runHeartbeatOnce i = ⟨.skipped r, [], i.entry, 0, false⟩) ∨
    (∃ e, i.reply = .error e ∧
      runHeartbeatOnce i = ⟨.failed e, [], i.entryMid, 1, false⟩) ∨
    ((runHeartbeatOnce i).result = .ran ∧
      (runHeartbeatOnce i).agentInvocations = 1 ∧
      (runHeartbeatOnce i).dispatchAttempted = false) ∨
    (∃ r, runHeartbeatOnce i = ⟨.skipped r, [], i.entryMid, 1, false⟩) ∨
    (i.dispatch = .ok () ∧ (runHeartbeatOnce i).result = .ran ∧
      (runHeartbeatOnce i).agentInvocations = 1 ∧
      (runHeartbeatOnce i).dispatchAttempted = true) ∨
    (∃ e, i.dispatch = .error e ∧
      runHeartbeatOnce i = ⟨.failed e, [], i.entryMid, 1, true⟩) := by
  by_cases h1 : i.heartbeatsEnabled = true
  swap
  · simp only [Bool.not_eq_true] at h1
    exact Or.inl ⟨"disabled", by simp [runHeartbeatOnce, h1]⟩
  by_cases h2 : isHeartbeatEnabledForAgent i.cfg (some (runAgentIdNorm i)) = true
  swap
  · simp only [Bool.not_eq_true] at h2
    exact Or.inl ⟨"disabled", by simp [runHeartbeatOnce, h1, h2]⟩
  by_cases h3 : (resolveHeartbeatIntervalMs i.cfg none (effectiveHeartbeat i)).isNone = true
  · exact Or.inl ⟨"disabled", by simp [runHeartbeatOnce, h1, h2, h3]⟩
  simp only [Bool.not_eq_true] at h3
  by_cases h4 : i.queueSize > 0
  · exact Or.inl ⟨"requests-in-flight", by simp [runHeartbeatOnce, h1, h2, h3, h4]⟩
  cases hr : i.reply with
  | error e2 =>
    exact Or.inr (Or.inl ⟨e2, rfl, by simp [runHeartbeatOnce, h1, h2, h3, h4, hr]⟩)
  | ok r =>
    cases hp : resolveHeartbeatReplyPayload r with
    | none =>
      refine Or.inr (Or.inr (Or.inl ?_))
      refine ⟨?_, ?_, ?_⟩ <;> simp [runHeartbeatOnce, h1, h2, h3, h4, hr, hp]
    | some p =>
      by_cases hpc : payloadHasContent p = true
      swap
      · simp only [Bool.not_eq_true] at hpc
        refine Or.inr (Or.inr (Or.inl ?_))
        refine ⟨?_, ?_, ?_⟩ <;> simp [runHeartbeatOnce, h1, h2, h3, h4, hr, hp, hpc]
      by_cases hsk : (mainShouldSkip i p && (runReasoningPayloads i r).isEmpty) = true
      · refine Or.inr (Or.inr (Or.inl ?_))
        refine ⟨?_, ?_, ?_⟩ <;> simp [runHeartbeatOnce, h1, h2, h3, h4, hr, hp, hpc, hsk]
      simp only [Bool.not_eq_true] at hsk
      by_cases hdup : isDuplicateMainPayload i.entry i.startedAt (mainShouldSkip i p)
          (mainMediaUrls p) (mainNormalized i p).text = true
      · refine Or.inr (Or.inr (Or.inl ?_))
        refine ⟨?_, ?_, ?_⟩ <;>
          simp [runHeartbeatOnce, h1, h2, h3, h4, hr, hp, hpc, hsk, hdup]
      simp only [Bool.not_eq_true] at hdup
      by_cases hnt : noTargetBranch i = true
      · refine Or.inr (Or.inr (Or.inl ?_))
        refine ⟨?_, ?_, ?_⟩ <;>
          simp [runHeartbeatOnce, h1, h2, h3, h4, hr, hp, hpc, hsk, hdup, hnt]
      simp only [Bool.not_eq_true] at hnt
      by_cases hrb : readinessBlocked i = true
      · refine Or.inr (Or.inr (Or.inr (Or.inl
          ⟨(i.checkReady.map (·.reason)).getD "", ?_⟩)))
        simp [runHeartbeatOnce, h1, h2, h3, h4, hr, hp, hpc, hsk, hdup, hnt, hrb]
      simp only [Bool.not_eq_true] at hrb
      cases hd : i.dispatch with
      | error e2 =>
        refine Or.inr (Or.inr (Or.inr (Or.inr (Or.inr ⟨e2, rfl, ?_⟩))))
        simp [runHeartbeatOnce, h1, h2, h3, h4, hr, hp, hpc, hsk, hdup, hnt, hrb, hd]
      | ok u =>
        cases u
        refine Or.inr (Or.inr (Or.inr (Or.inr (Or.inl ⟨rfl, ?_, ?_, ?_⟩)))) <;>
          simp [runHeartbeatOnce, h1, h2, h3, h4, hr, hp, hpc, hsk, hdup, hnt, hrb, hd]

/-- C8 (amended): exceptions from the agent invocation or the dispatch
call are caught at the single top-level try/catch and converted into a
`failed` result carrying the error string; every `failed` result
originates from one of those two collaborator exceptions; the agent is
invoked at most once per run, so a failed run is not retried within the
same tick; but the try block begins only after the pre-try region
(session-store load, target and sender resolution, prompt assembly), so
an exception thrown there escapes `runHeartbeatOnce` uncaught. -/
theorem claim_C8_failure_conversion :
    (∀ (i : RunInput) (e : String),
      gatesPass i →
      runHeartbeatOncePre (.error e) i = .error e) ∧
    (∀ i : RunInput, runHeartbeatOncePre (.ok ()) i = .ok (runHeartbeatOnce i)) ∧
    (∀ (i : RunInput) (e : String),
      gatesPass i → i.reply = .error e →
      runHeartbeatOnce i = ⟨.failed e, [], i.entryMid, 1, false⟩) ∧
    (∀ (i : RunInput) (e : String),
      (runHeartbeatOnce i).result = .failed e →
      i.reply = .error e ∨ i.dispatch = .error e) ∧
    (∀ (i : RunInput) (e : String),
      (runHeartbeatOnce i).dispatchAttempted = true →
      i.dispatch = .error e →
      (runHeartbeatOnce i).result = .failed e) ∧
    (∀ i : RunInput, (runHeartbeatOnce i).agentInvocations ≤ 1) := by
  refine ⟨?_, ?_, ?_, ?_, ?_, ?_⟩
  · intro i e hgate
    obtain ⟨h1, h2, h3, h4⟩ := hgate
    have hq : ¬ i.queueSize > 0 := by omega
    simp [runHeartbeatOncePre, h1, h2, h3, hq]
  · intro i
    by_cases h1 : i.heartbeatsEnabled = true
    swap
    · simp only [Bool.not_eq_true] at h1
      simp [runHeartbeatOncePre, runHeartbeatOnce, h1]
    by_cases h2 : isHeartbeatEnabledForAgent i.cfg (some (runAgentIdNorm i)) = true
    swap
    · simp only [Bool.not_eq_true] at h2
      simp [runHeartbeatOncePre, runHeartbeatOnce, h1, h2]
    by_cases h3 : (resolveHeartbeatIntervalMs i.cfg none (effectiveHeartbeat i)).isNone = true
    · simp [runHeartbeatOncePre, runHeartbeatOnce, h1, h2, h3]
    simp only [Bool.not_eq_true] at h3
    by_cases h4 : i.queueSize > 0
    · simp [runHeartbeatOncePre, runHeartbeatOnce, h1, h2, h3, h4]
    · simp [runHeartbeatOncePre, h1, h2, h3, h4]
  · intro i e hgate hreply
    obtain ⟨h1, h2, h3, h4⟩ := hgate
    have hq : ¬ i.queueSize > 0 := by omega
    simp [runHeartbeatOnce, h1, h2, h3, hq, hreply]
  · intro i e h
    rcases runHeartbeatOnce_outcomes i with ⟨r, hcase⟩ | ⟨e2, hr, hcase⟩ | hcase |
      ⟨r, hcase⟩ | ⟨hd, hcase⟩ | ⟨e2, hd, hcase⟩
    · rw [hcase] at h
      simp at h
    · rw [hcase] at h
      simp only [HeartbeatRunResult.failed.injEq] at h
      subst h
      exact Or.inl hr
    · have := hcase.1.symm.trans h
      simp at this
    · rw [hcase] at h
      simp at h
    · have := hcase.1.symm.trans h
      simp at this
    · rw [hcase] at h
      simp only [HeartbeatRunResult.failed.injEq] at h
      subst h
      exact Or.inr hd
  · intro i e hatt hdisp
    rcases runHeartbeatOnce_outcomes i with ⟨r, hcase⟩ | ⟨e2, hr, hcase⟩ | hcase |
      ⟨r, hcase⟩ | ⟨hd, hcase⟩ | ⟨e2, hd, hcase⟩
    · rw [hcase] at hatt
      simp at hatt
    · rw [hcase] at hatt
      simp at hatt
    · rw [hcase.2.2] at hatt
      simp at hatt
    · rw [hcase] at hatt
      simp at hatt
    · rw [hdisp] at hd
      simp at hd
    · have he2 : e2 = e := by
        rw [hd] at hdisp
        injection hdisp
      rw [hcase, he2]
  · intro i
    rcases runHeartbeatOnce_outcomes i with ⟨r, hcase⟩ | ⟨e2, hr, hcase⟩ | hcase |
      ⟨r, hcase⟩ | ⟨hd, hcase⟩ | ⟨e2, hd, hcase⟩
    · simp [hcase]
    · simp [hcase]
    · simp [hcase.2.1]
    · simp [hcase]
    · simp [hcase.2.1]
    · simp [hcase]

/-- Counterexample for C8 as frozen: at a configuration where every gate
passes and every in-try collaborator succeeds, an exception thrown in
the prompt-assembly region escapes `runHeartbeatOnce` as an exception
instead of being caught and converted into a failed result. -/
theorem claim_C8_prompt_build_escape :
    runHeartbeatOncePre (.error "transcript unreadable")
      { cfg := testCfg, entry := some testEntry, entryMid := some testEntry,
        reply := .ok (.many [{ text := some "Final alert" }]),
        checkReady := some ⟨true, "ok"⟩ } =
      .error "transcript unreadable" := rfl

/-- Witness for C8: a pre-try exception escapes, and a thrown agent
invocation becomes a failed result. -/
theorem claim_C8_failure_conversion_witness :
    runHeartbeatOncePre (.error "store locked")
      { cfg := testCfg, entry := some testEntry, entryMid := some testEntry } =
      .error "store locked" ∧
    runHeartbeatOnce
      { cfg := testCfg, entry := some testEntry, entryMid := some testEntry,
        reply := .error "boom" } =
      ⟨.failed "boom", [], some testEntry, 1, false⟩ :=
  ⟨claim_C8_failure_conversion.1
      { cfg := testCfg, entry := some testEntry, entryMid := some testEntry }
      "store locked" ⟨rfl, by decide, by decide, rfl⟩,
   claim_C8_failure_conversion.2.2.1
      { cfg := testCfg, entry := some testEntry, entryMid := some testEntry,
        reply := .error "boom" } "boom"
      ⟨rfl, by decide, by decide, rfl⟩ rfl⟩

end Clawdbot
